import Mathlib

/-!
The `event` command of spacemouse-utils (`src/spacemouse.c`)

A shallow embedding of the event engine of `spacemouse.c`:

* the per-axis debounce state machine (the `for (int i = 0; i < 6; i++)` loop that
  runs on every motion reading),
* the filter evaluation (`run_regex` and the two loops that use it),
* the start-up phase of `main` (trigger check, non-option arguments, initial scan),
* one wake of the poll loop (readiness array, dispatch, hot-plug handling).

Machine integers: `unsigned int` members are `Nat` with an explicit `% 2 ^ 32` at
every place where the C code does arithmetic on them; `int` values are `Int`.
External libraries (libc `regcomp`/`regexec`, libspacemouse, `poll`) are not part of
the program; their answers are inputs of the model.
-/

namespace Spacemouse

/-! ## Constants -/

/-- In C: `#define EXIT_ERROR 2` -/
def EXIT_ERROR : Int := 2

/-- In C: `EXIT_FAILURE` of `<stdlib.h>`. -/
def EXIT_FAILURE : Int := 1

/-- In C: `EXIT_SUCCESS` of `<stdlib.h>`. -/
def EXIT_SUCCESS : Int := 0

/-- In C: `#define MIN_DEVIATION 256` -/
def MIN_DEVIATION : Int := 256

/-- In C: `#define N_EVENTS 16` -/
def N_EVENTS : Nat := 16

/-- Number of values of an `unsigned int`. -/
def UINT_SIZE : Nat := 2 ^ 32

/-- In C: `INT_MAX` of `<limits.h>`. -/
def INT_MAX : Nat := 2 ^ 31 - 1

/-! ## Output records -/

/-- The lines the program writes to standard output, one constructor per `printf`
format of the event command (and the listing of the `list` command and the two
formats of the `led` command). -/
inductive Output where
  /-- In C: `printf("motion: %s\n", event_str)` -/
  | motion (event_str : String)
  /-- In C: `printf("button: %d %s\n", bnum, press ? "press" : "release")` -/
  | button (bnum : Int) (press : Bool)
  /-- In C: `printf("device: %s %s %s connect\n", devnode, manufacturer, product)` -/
  | connect (devnode manufacturer product : String)
  /-- In C: `printf("device: %s %s %s disconnect\n", devnode, manufacturer, product)` -/
  | disconnect (devnode manufacturer product : String)
  /-- In C: `printf("devnode: %s\nmanufacturer: %s\nproduct: %s\n\n", ...)` -/
  | listing (devnode manufacturer product : String)
  /-- In C: `printf("%s: %s\n", devnode, led_state ? "on" : "off")` -/
  | led (devnode : String) (lit : Bool)
  /-- In C: `printf("%s: switched %s\n", devnode, state ? "on" : "off")` -/
  | led_switched (devnode : String) (lit : Bool)
  /-- The help text of option `-h` (its wording depends on the command only). -/
  | help
deriving DecidableEq, Repr

/-- The text of an output record. -/
def Output.text : Output → String
  | .motion s => "motion: " ++ s ++ "\n"
  | .button bnum press =>
      "button: " ++ toString bnum ++ " " ++ (if press then "press" else "release") ++ "\n"
  | .connect d m p => "device: " ++ d ++ " " ++ m ++ " " ++ p ++ " connect\n"
  | .disconnect d m p => "device: " ++ d ++ " " ++ m ++ " " ++ p ++ " disconnect\n"
  | .listing d m p => "devnode: " ++ d ++ "\nmanufacturer: " ++ m ++ "\nproduct: " ++ p ++ "\n\n"
  | .led d lit => d ++ ": " ++ (if lit then "on" else "off") ++ "\n"
  | .led_switched d lit => d ++ ": switched " ++ (if lit then "on" else "off") ++ "\n"
  | .help => "Usage: spacemouse [OPTIONS]\n"

/-! ## Configuration (the option variables of `main`) -/

/-- The variables of `main` that the option loop fills in.  `n_events` and
`millis_period` are `int` in C; the option loop only ever stores `0` (initial value)
or a value `>= 1` in them, so they are kept as natural numbers. -/
structure Config where
  dev_opt : Option String
  man_opt : Option String
  pro_opt : Option String
  regex_mask : Nat
  grab_dev : Bool
  min_deviation : Int
  n_events : Nat
  millis_period : Nat
deriving DecidableEq, Repr

/-! ## Axis state: `axis_pos_map` and `axis_neg_map` -/

/-- The two mutable members of `struct axis_event`, both `unsigned int`.  The third
member, `event_str`, is declared `char const * const` and is never written; it is the
constant table `event_str` below. -/
structure axis_event where
  n_events : Nat
  millis : Nat
deriving DecidableEq, Repr

/-- The `event_str` members of `axis_pos_map[]`. -/
def axis_pos_str (i : Fin 6) : String :=
  match i.val with
  | 0 => "right"
  | 1 => "up"
  | 2 => "forward"
  | 3 => "pitch back"
  | 4 => "yaw left"
  | _ => "roll right"

/-- The `event_str` members of `axis_neg_map[]`. -/
def axis_neg_str (i : Fin 6) : String :=
  match i.val with
  | 0 => "left"
  | 1 => "down"
  | 2 => "back"
  | 3 => "pitch forward"
  | 4 => "yaw right"
  | _ => "roll left"

/-- The global arrays `axis_pos_map[6]` and `axis_neg_map[6]`. -/
structure AxisMaps where
  axis_pos_map : Fin 6 → axis_event
  axis_neg_map : Fin 6 → axis_event

/-- The initialisers of the two arrays: every counter and accumulator is `0`. -/
def AxisMaps.init : AxisMaps :=
  { axis_pos_map := fun _ => { n_events := 0, millis := 0 }
    axis_neg_map := fun _ => { n_events := 0, millis := 0 } }

/-- In C: `axis_map[i]`, where `axis_map` is `axis_pos_map` (`positive = true`) or
`axis_neg_map` (`positive = false`). -/
def AxisMaps.get (s : AxisMaps) (positive : Bool) (i : Fin 6) : axis_event :=
  if positive then s.axis_pos_map i else s.axis_neg_map i

/-- The assignment `axis_map[i] = e`. -/
def AxisMaps.set (s : AxisMaps) (positive : Bool) (i : Fin 6) (e : axis_event) : AxisMaps :=
  if positive then { s with axis_pos_map := Function.update s.axis_pos_map i e }
  else { s with axis_neg_map := Function.update s.axis_neg_map i e }

/-- In C: `axis_map[i].event_str` -/
def event_str (positive : Bool) (i : Fin 6) : String :=
  if positive then axis_pos_str i else axis_neg_str i

/-! ## Motion readings -/

/-- The `motion` member of `spacemouse_event`: six `int` samples and the period in
milliseconds since the previous reading (`unsigned int`). -/
structure motion_event where
  x : Int
  y : Int
  z : Int
  rx : Int
  ry : Int
  rz : Int
  period : Nat
deriving DecidableEq, Repr

/-- In C: `int *int_ptr = &mouse_event.motion.x;` followed by `int_ptr[i]`. -/
def int_ptr (ev : motion_event) (i : Fin 6) : Int :=
  match i.val with
  | 0 => ev.x
  | 1 => ev.y
  | 2 => ev.z
  | 3 => ev.rx
  | 4 => ev.ry
  | _ => ev.rz

/-! ## The per-axis debounce loop (lines 543-581) -/

/-- The body of `if (axis_map != 0) { ... }`: the active direction is `positive`. -/
def axis_active (cfg : Config) (period : Nat) (positive : Bool) (i : Fin 6)
    (s : AxisMaps) : AxisMaps × List Output :=
  if cfg.millis_period ≠ 0 then
    -- axis_map[i].millis += mouse_event.motion.period;
    let m := ((s.get positive i).millis + period) % UINT_SIZE
    if m > cfg.millis_period then
      -- axis_map[i].millis = axis_map[i].millis % millis_period; print_event = 1;
      (s.set positive i { s.get positive i with millis := m % cfg.millis_period },
        [Output.motion (event_str positive i)])
    else
      (s.set positive i { s.get positive i with millis := m }, [])
  else
    -- axis_map[i].n_events += 1;
    let n := ((s.get positive i).n_events + 1) % UINT_SIZE
    let s1 := s.set positive i { s.get positive i with n_events := n }
    -- axis_inverse_map[i].n_events = 0;
    let s2 := s1.set (!positive) i { s1.get (!positive) i with n_events := 0 }
    if n % cfg.n_events = 0 then
      (s2, [Output.motion (event_str positive i)])
    else
      (s2, [])

/-- One iteration of `for (int i = 0; i < 6; i++)`. -/
def axis_iteration (cfg : Config) (ev : motion_event) (i : Fin 6)
    (s : AxisMaps) : AxisMaps × List Output :=
  if int_ptr ev i > cfg.min_deviation then
    axis_active cfg ev.period true i s
  else if int_ptr ev i < -1 * cfg.min_deviation then
    axis_active cfg ev.period false i s
  else
    let s1 := s.set true i { s.get true i with n_events := 0 }
    let s2 := s1.set false i { s1.get false i with n_events := 0 }
    let s3 := s2.set true i { s2.get true i with millis := 0 }
    let s4 := s3.set false i { s3.get false i with millis := 0 }
    (s4, [])

/-- The iterations of the loop over a list of axis indices, with the lines printed
so far. -/
def axis_iterations (cfg : Config) (ev : motion_event) :
    List (Fin 6) → AxisMaps × List Output → AxisMaps × List Output
  | [], acc => acc
  | i :: rest, acc =>
      let r := axis_iteration cfg ev i acc.1
      axis_iterations cfg ev rest (r.1, acc.2 ++ r.2)

/-- The indices `0, 1, ..., 5` in the order of the `for` loop. -/
def axes : List (Fin 6) := [0, 1, 2, 3, 4, 5]

/-- The whole loop `for (int i = 0; i < 6; i++) { ... }` for one motion reading:
the new axis state and the lines printed, in order. -/
def motion_loop (cfg : Config) (ev : motion_event) (s : AxisMaps) : AxisMaps × List Output :=
  axis_iterations cfg ev axes (s, [])

/-- The axis state after a sequence of motion readings. -/
def feed (cfg : Config) (s : AxisMaps) (evs : List motion_event) : AxisMaps :=
  evs.foldl (fun st ev => (motion_loop cfg ev st).1) s

/-- The lines printed by each reading of a sequence, one list per reading. -/
def feed_output (cfg : Config) : AxisMaps → List motion_event → List (List Output)
  | _, [] => []
  | s, ev :: rest => (motion_loop cfg ev s).2 :: feed_output cfg (motion_loop cfg ev s).1 rest

/-! ## Filter evaluation -/

/-- The answers of libc: `regcomp(&preg, regex, cflags)` (`0` on success) and
`regexec(&preg, string, 0, NULL, 0)` for the `preg` compiled from `regex` and `cflags`
(`0` on a match, `REG_NOMATCH` otherwise). -/
structure Libc where
  regcomp : String → Nat → Int
  regexec : String → Nat → String → Int

/-- In C: `int run_regex(char const *regex, char const *string, int comp_mask)` -/
def run_regex (libc : Libc) (regex : String) (string : String) (comp_mask : Nat) : Int :=
  if libc.regcomp regex comp_mask ≠ 0 then -1
  else libc.regexec regex comp_mask string

/-- A device object (`struct spacemouse`) as the accessor functions show it:
`spacemouse_device_get_devnode`, `_get_manufacturer`, `_get_product`, `_get_fd`
(`-1` while the device is not open). -/
structure spacemouse where
  devnode : String
  manufacturer : String
  product : String
  fd : Int
deriving DecidableEq, Repr

/-- What the program writes to standard error before a failing exit. -/
inductive ErrorMsg where
  /-- In C: `"%s: options '--n-events' and '--millis' are mutually exclusive\n"` -/
  | mutually_exclusive
  /-- In C: `"%s: does not take non-option arguments\n"` -/
  | no_non_option_arguments
  /-- In C: `"%s: expected zero or one non-option arguments, see '-h' for help\n"` -/
  | zero_or_one_argument
  /-- In C: `"%s: invalid non-option argument -- '%s', see '-h' for help\n"` -/
  | invalid_argument (arg : String)
  /-- In C: `"%s: invalid command argument -- '%s', see '-h' for help\n"` -/
  | invalid_command (arg : String)
  /-- In C: `"%s: failed to use regex for '%s' option -- %s\n"` -/
  | regex_failed (option_name : String) (pattern : String)
  /-- In C: `"%s: failed to open device: %s\n"` -/
  | open_failed (devnode : String)
  /-- In C: `"%s: failed to grab device: %s\n"` -/
  | grab_failed (devnode : String)
  /-- In C: `"%s: failed to get led state for: %s\n"` -/
  | get_led_failed (devnode : String)
  /-- In C: `"%s: failed to set led state for: %s\n"` -/
  | set_led_failed (devnode : String)
  /-- In C: `"%s: option '--deviation' needs to be a valid positive integer\n"` -/
  | bad_deviation
  /-- In C: `"%s: option '--n-events' needs to be a valid positive integer\n"` -/
  | bad_n_events
  /-- In C: `"%s: option '--millis' needs to be a valid positive integer, in milliseconds\n"` -/
  | bad_millis
deriving DecidableEq, Repr

/-- In C: `long_options[n].name` for `n = 0, 1, 2`. -/
def long_option_name (n : Fin 3) : String :=
  match n.val with
  | 0 => "devnode"
  | 1 => "manufacturer"
  | _ => "product"

/-- In C: `opts[n]` of `char const *opts[] = { dev_opt, man_opt, pro_opt }`. -/
def opts (cfg : Config) (n : Fin 3) : Option String :=
  match n.val with
  | 0 => cfg.dev_opt
  | 1 => cfg.man_opt
  | _ => cfg.pro_opt

/-- In C: `members[n]` of `char const *members[] = { devnode, manufacturer, product }`. -/
def members (dev : spacemouse) (n : Fin 3) : String :=
  match n.val with
  | 0 => dev.devnode
  | 1 => dev.manufacturer
  | _ => dev.product

/-- The filter loop of the initial scan (lines 364-374), from index list `ns` on, with
the current value of `skip`: the final `skip`, or the error message of the failing exit.
A pattern that does not match (`regex_success == 1`) increments `skip`. -/
def scan_filter (libc : Libc) (cfg : Config) (dev : spacemouse) :
    List (Fin 3) → Nat → Except ErrorMsg Nat
  | [], skip => .ok skip
  | n :: rest, skip =>
      match opts cfg n with
      | none => scan_filter libc cfg dev rest skip
      | some pat =>
          let regex_success := run_regex libc pat (members dev n) cfg.regex_mask
          if regex_success = -1 then .error (ErrorMsg.regex_failed (long_option_name n) pat)
          else if regex_success = 1 then scan_filter libc cfg dev rest (skip + 1)
          else scan_filter libc cfg dev rest skip

/-- The filter loop of the hot-plug add branch (lines 485-497).  Here `skip` is
incremented when `regex_success == 0`. -/
def add_filter (libc : Libc) (cfg : Config) (dev : spacemouse) :
    List (Fin 3) → Nat → Except ErrorMsg Nat
  | [], skip => .ok skip
  | n :: rest, skip =>
      match opts cfg n with
      | none => add_filter libc cfg dev rest skip
      | some pat =>
          let regex_success := run_regex libc pat (members dev n) cfg.regex_mask
          if regex_success = -1 then .error (ErrorMsg.regex_failed (long_option_name n) pat)
          else if regex_success = 0 then add_filter libc cfg dev rest (skip + 1)
          else add_filter libc cfg dev rest skip

/-- The indices `0, 1, 2` of the filter loops. -/
def filter_indices : List (Fin 3) := [0, 1, 2]

/-! ## The world outside the program -/

/-- The commands of the multi-call binary (`NO_CMD`, `LIST_CMD`, `LED_CMD`, `EVENT_CMD`). -/
inductive Command where
  | NO_CMD
  | LIST_CMD
  | LED_CMD
  | EVENT_CMD
deriving DecidableEq, Repr

/-- The `action` that `spacemouse_monitor(&action)` reports: `SPACEMOUSE_ACTION_ADD`,
`SPACEMOUSE_ACTION_REMOVE`, or any other value. -/
inductive Action where
  | ADD
  | REMOVE
  | other
deriving DecidableEq, Repr

/-- The result of `spacemouse_device_read_event`: `-1`, `SPACEMOUSE_READ_SUCCESS`, or any
other value. -/
inductive ReadStatus where
  | error
  | SUCCESS
  | other
deriving DecidableEq, Repr

/-- The `spacemouse_event` union after a read: a motion event, a button event, or an
event of another type. -/
inductive spacemouse_event where
  | motion (m : motion_event)
  | button (bnum : Int) (press : Int)
  | other
deriving DecidableEq, Repr

/-- One answer of `spacemouse_monitor(&action)`: the action, the device it returns
(`mon_mouse`, an address) and the library's device list after the call. -/
structure Notification where
  action : Action
  mon_mouse : Nat
  devices_after : List Nat
deriving DecidableEq, Repr

/-- The state of libspacemouse and of the kernel as far as the program can see it.
Device objects are named by their address (a natural number); `spacemouse *` values are
`Option Nat`, `none` being `NULL`.  The answers the library will give are part of the
world: what `spacemouse_device_open` and `spacemouse_device_grab` return for a device,
the LED answers, the pending hot-plug notifications and the pending reads per device. -/
structure World where
  /-- The device object at an address. -/
  obj : Nat → spacemouse
  /-- The library's device list (`spacemouse_device_list()`), head first. -/
  devices : List Nat
  /-- The result of `spacemouse_monitor_open()`. -/
  monitor_open_result : Int
  /-- The result of `spacemouse_device_open(dev)`: the descriptor, or `-1`. -/
  open_result : Nat → Int
  /-- The result of `spacemouse_device_grab(dev)`; `dev` may be `NULL`. -/
  grab_result : Option Nat → Int
  /-- The result of `spacemouse_device_get_led(dev)`. -/
  get_led_result : Nat → Int
  /-- The result of `spacemouse_device_set_led(dev, state)`. -/
  set_led_result : Nat → Int → Int
  /-- The answers of the coming calls of `spacemouse_monitor`. -/
  notifications : List Notification
  /-- The answers of the coming calls of `spacemouse_device_read_event(dev, ...)`. -/
  reads : Nat → List (ReadStatus × spacemouse_event)

/-- In C: `struct pollfd` -/
structure pollfd where
  fd : Int
  events : Nat
  revents : Nat
deriving DecidableEq, Repr

/-- The calls the program makes to the outside, in order: the trace of a run. -/
inductive Call where
  | monitor_open
  | device_list_update
  | device_open (dev : Nat)
  | device_grab (dev : Option Nat)
  | device_close (dev : Nat)
  | device_get_led (dev : Nat)
  | device_set_led (dev : Nat) (state : Int)
  | monitor
  | device_read_event (dev : Nat)
  | poll (fds : List pollfd)
  | stdout (line : Output)
  | stderr (msg : ErrorMsg)
deriving DecidableEq, Repr

/-- The state of a run: the world, the axis tables and the calls made so far. -/
structure State where
  world : World
  axis : AxisMaps
  trace : List Call

/-- A piece of the program either calls `exit(status)` or goes on with a value. -/
inductive Outcome (α : Type) where
  | exit (status : Int) (trace : List Call)
  | cont (val : α)

/-- The calls made: up to the exit, or so far. -/
def Outcome.calls : Outcome State → List Call
  | .exit _ trace => trace
  | .cont st => st.trace

/-- The exit status, if the process has exited. -/
def Outcome.status {α : Type} : Outcome α → Option Int
  | .exit status _ => some status
  | .cont _ => none

/-- Record a call. -/
def State.log (st : State) (c : Call) : State :=
  { st with trace := st.trace ++ [c] }

/-- In C: `spacemouse_device_get_fd(dev)` -/
def World.get_fd (w : World) (dev : Nat) : Int := (w.obj dev).fd

/-- The device object after its descriptor changed (open or close). -/
def World.set_fd (w : World) (dev : Nat) (fd : Int) : World :=
  { w with obj := Function.update w.obj dev { w.obj dev with fd := fd } }

/-- The call `spacemouse_device_close(dev)`: the call is recorded and the device has no
descriptor any more. -/
def device_close (dev : Nat) (st : State) : State :=
  { (st.log (Call.device_close dev)) with world := st.world.set_fd dev (-1) }

/-- The call `exit(EXIT_FAILURE)` after `fprintf(stderr, ...)`. -/
def fail {α : Type} (st : State) (msg : ErrorMsg) : Outcome α :=
  .exit EXIT_FAILURE (st.trace ++ [Call.stderr msg])

/-- Sequencing: go on with `f` unless the process has exited. -/
def Outcome.bind {α β : Type} (o : Outcome α) (f : α → Outcome β) : Outcome β :=
  match o with
  | .exit status trace => .exit status trace
  | .cont val => f val

/-! ## Start-up: option loop, trigger check, non-option arguments, initial scan -/

/-- The flags `REG_EXTENDED`, `REG_ICASE` and `REG_NOSUB` of `<regex.h>` (glibc values). -/
def REG_EXTENDED : Nat := 1

/-- See `REG_EXTENDED`. -/
def REG_ICASE : Nat := 2

/-- See `REG_EXTENDED`. -/
def REG_NOSUB : Nat := 8

/-- What `getopt_long` hands to the option loop, one value per iteration; the numeric
options carry `atoi(optarg)`.  `unknown` is the return value `?`. -/
inductive Opt where
  | d (optarg : String)
  | m (optarg : String)
  | p (optarg : String)
  | i
  | g
  | D (atoi_optarg : Int)
  | n (atoi_optarg : Int)
  | M (atoi_optarg : Int)
  | h
  | unknown
deriving DecidableEq, Repr

/-- The initial values of the option variables of `main` (lines 96-99). -/
def initial_config : Config :=
  { dev_opt := none, man_opt := none, pro_opt := none,
    regex_mask := REG_EXTENDED ||| REG_NOSUB, grab_dev := false,
    min_deviation := MIN_DEVIATION, n_events := 0, millis_period := 0 }

/-- The option loop `while ((c = getopt_long(...)) != -1) switch (c) { ... }`
(lines 225-299). -/
def option_loop : List Opt → Config → Outcome Config
  | [], cfg => .cont cfg
  | Opt.d optarg :: rest, cfg => option_loop rest { cfg with dev_opt := some optarg }
  | Opt.m optarg :: rest, cfg => option_loop rest { cfg with man_opt := some optarg }
  | Opt.p optarg :: rest, cfg => option_loop rest { cfg with pro_opt := some optarg }
  | Opt.i :: rest, cfg => option_loop rest { cfg with regex_mask := cfg.regex_mask ||| REG_ICASE }
  | Opt.g :: rest, cfg => option_loop rest { cfg with grab_dev := true }
  | Opt.D tmp :: rest, cfg =>
      if tmp < 1 then .exit EXIT_FAILURE [Call.stderr ErrorMsg.bad_deviation]
      else option_loop rest { cfg with min_deviation := tmp }
  | Opt.n tmp :: rest, cfg =>
      if tmp < 1 then .exit EXIT_FAILURE [Call.stderr ErrorMsg.bad_n_events]
      else option_loop rest { cfg with n_events := tmp.toNat }
  | Opt.M tmp :: rest, cfg =>
      if tmp < 1 then .exit EXIT_FAILURE [Call.stderr ErrorMsg.bad_millis]
      else option_loop rest { cfg with millis_period := tmp.toNat }
  | Opt.h :: _, _ => .exit EXIT_SUCCESS [Call.stdout Output.help]
  | Opt.unknown :: _, _ => .exit EXIT_FAILURE []

/-- The mutual-exclusion check and the default of `n_events` (lines 302-307). -/
def check_trigger (cfg : Config) : Outcome Config :=
  if cfg.n_events ≠ 0 ∧ cfg.millis_period ≠ 0 then
    .exit EXIT_FAILURE [Call.stderr ErrorMsg.mutually_exclusive]
  else if cfg.n_events = 0 then
    .cont { cfg with n_events := N_EVENTS }
  else
    .cont cfg

/-- The block that looks at the non-option arguments (lines 309-352): `positional` is
`argv[optind .. argc - 1]`; the result is `state_arg`. -/
def check_arguments (command : Command) (positional : List String) : Outcome Int :=
  match positional with
  | [] => .cont (-1)
  | [arg] =>
      if command = Command.LED_CMD then
        let lower := arg.map Char.toLower
        if lower = "on" ∨ lower = "1" then .cont 1
        else if lower = "off" ∨ lower = "0" then .cont 0
        else if lower = "switch" then .cont 2
        else .exit EXIT_FAILURE [Call.stderr (ErrorMsg.invalid_argument lower)]
      else if command = Command.NO_CMD then
        .exit EXIT_FAILURE [Call.stderr (ErrorMsg.invalid_command arg)]
      else
        .exit EXIT_FAILURE [Call.stderr ErrorMsg.no_non_option_arguments]
  | _ :: _ :: _ =>
      if command = Command.LED_CMD ∨ command = Command.NO_CMD then
        .exit EXIT_FAILURE [Call.stderr ErrorMsg.zero_or_one_argument]
      else
        .exit EXIT_FAILURE [Call.stderr ErrorMsg.no_non_option_arguments]

/-- The call `spacemouse_device_open(dev)`: the call is recorded; on success the device carries
the descriptor returned. -/
def device_open (dev : Nat) (st : State) : Int × State :=
  let r := st.world.open_result dev
  (r, { (st.log (Call.device_open dev)) with
          world := if r = -1 then st.world else st.world.set_fd dev r })

/-- The LED part of the scan body (lines 401-433). -/
def scan_led (state_arg : Int) (dev : Nat) (st : State) : Outcome State :=
  let needs_state := state_arg = -1 ∨ state_arg = 2
  let led_state : Int := if needs_state then st.world.get_led_result dev else -1
  let st1 := if needs_state then st.log (Call.device_get_led dev) else st
  if needs_state ∧ led_state = -1 then
    fail st1 (ErrorMsg.get_led_failed (st1.world.obj dev).devnode)
  else if state_arg = -1 then
    .cont (device_close dev
      (st1.log (Call.stdout (Output.led (st1.world.obj dev).devnode (led_state ≠ 0)))))
  else
    let state : Int := if state_arg = 2 then (if led_state = 0 then 1 else 0) else state_arg
    let st2 := st1.log (Call.device_set_led dev state)
    if st2.world.set_led_result dev state ≠ 0 then
      fail st2 (ErrorMsg.set_led_failed (st2.world.obj dev).devnode)
    else if state_arg = 2 then
      .cont (device_close dev
        (st2.log (Call.stdout (Output.led_switched (st2.world.obj dev).devnode (state ≠ 0)))))
    else
      .cont (device_close dev st2)

/-- The body of the initial scan for one device (lines 358-434). -/
def scan_device (libc : Libc) (command : Command) (cfg : Config) (state_arg : Int)
    (dev : Nat) (st : State) : Outcome State :=
  match scan_filter libc cfg (st.world.obj dev) filter_indices 0 with
  | .error msg => fail st msg
  | .ok skip =>
      if skip = 0 then
        let opened : Outcome State :=
          if command = Command.NO_CMD ∨ command = Command.LIST_CMD then
            .cont (st.log (Call.stdout (Output.listing (st.world.obj dev).devnode
              (st.world.obj dev).manufacturer (st.world.obj dev).product)))
          else
            let r := device_open dev st
            if r.1 = -1 then fail r.2 (ErrorMsg.open_failed (r.2.world.obj dev).devnode)
            else .cont r.2
        opened.bind fun st1 =>
          let grabbed : Outcome State :=
            if cfg.grab_dev then
              let st2 := st1.log (Call.device_grab (some dev))
              if st2.world.grab_result (some dev) ≠ 0 then
                fail st2 (ErrorMsg.grab_failed (st2.world.obj dev).devnode)
              else .cont st2
            else .cont st1
          grabbed.bind fun st3 =>
            if command = Command.LED_CMD then scan_led state_arg dev st3
            else .cont st3
      else
        .cont st

/-- The loop `spacemouse_device_list_foreach(iter, spacemouse_device_list_update())`
over the devices `devs`. -/
def scan_devices (libc : Libc) (command : Command) (cfg : Config) (state_arg : Int) :
    List Nat → State → Outcome State
  | [], st => .cont st
  | dev :: rest, st =>
      (scan_device libc command cfg state_arg dev st).bind
        (scan_devices libc command cfg state_arg rest)

/-- What the start-up phase hands to the poll loop. -/
structure Running where
  cfg : Config
  monitor_fd : Int
  state : State

/-- The part of `main` from the non-option arguments to the first `while(1)` iteration
(lines 309-438), run on the option variables `cfg1` that passed the trigger check. -/
def after_trigger_check (libc : Libc) (command : Command) (positional : List String)
    (w : World) (cfg1 : Config) : Outcome Running :=
  (check_arguments command positional).bind fun state_arg =>
    let st0 : State := { world := w, axis := AxisMaps.init, trace := [] }
    let st1 := if command = Command.EVENT_CMD then st0.log Call.monitor_open else st0
    let monitor_fd : Int :=
      if command = Command.EVENT_CMD then w.monitor_open_result else -1
    let st2 := st1.log Call.device_list_update
    (scan_devices libc command cfg1 state_arg st2.world.devices st2).bind fun st3 =>
      if command ≠ Command.EVENT_CMD then .exit EXIT_SUCCESS st3.trace
      else .cont { cfg := cfg1, monitor_fd := monitor_fd, state := st3 }

/-- The part of `main` from the end of the option loop to the first `while(1)` iteration
(lines 302-438), run on the option variables `cfg`. -/
def startup (libc : Libc) (command : Command) (cfg : Config) (positional : List String)
    (w : World) : Outcome Running :=
  (check_trigger cfg).bind (after_trigger_check libc command positional w)

/-- The program up to the poll loop, from what `getopt_long` returns. -/
def main_startup (libc : Libc) (command : Command) (argv_opts : List Opt)
    (positional : List String) (w : World) : Outcome Running :=
  (option_loop argv_opts initial_config).bind fun cfg =>
    startup libc command cfg positional w

/-! ## One iteration of the poll loop (lines 440-593) -/

/-- In C: `STDOUT_FILENO` of `<unistd.h>`. -/
def STDOUT_FILENO : Int := 1

/-- In C: `POLLIN` of `<poll.h>`. -/
def POLLIN : Nat := 1

/-- In C: `POLLERR` of `<poll.h>`. -/
def POLLERR : Nat := 8

/-- The test `spacemouse_device_get_fd(iter) > -1`. -/
def is_open (w : World) (dev : Nat) : Bool :=
  decide (w.get_fd dev > -1)

/-- The devices of the list that are open (`spacemouse_device_get_fd(iter) > -1`), in
list order. -/
def open_devices (w : World) : List Nat :=
  w.devices.filter (is_open w)

/-- The length of the array declared by `struct pollfd fds[fds_idx + 1]`, where
`fds_idx` has just counted the open devices. -/
def fds_length (w : World) : Nat :=
  (open_devices w).length + 1

/-- The entry of `fds` written for an open device:
`fds[fds_idx].fd = mouse_fd; fds[fds_idx++].events = POLLIN;`. -/
def device_entry (w : World) (dev : Nat) : pollfd :=
  { fd := w.get_fd dev, events := POLLIN, revents := 0 }

/-- The entries the loop writes into `fds`, in index order: standard output, the
hot-plug channel, then one entry per open device. -/
def fill_fds (monitor_fd : Int) (w : World) : List pollfd :=
  { fd := STDOUT_FILENO, events := POLLERR, revents := 0 } ::
    { fd := monitor_fd, events := POLLIN, revents := 0 } ::
    (open_devices w).map (device_entry w)

/-- The answer of `poll(fds, fds_idx, -1)`: entry `n` gets `revents n`. -/
def set_revents (revents : Nat → Nat) : Nat → List pollfd → List pollfd
  | _, [] => []
  | n, f :: rest => { f with revents := revents n } :: set_revents revents (n + 1) rest

/-- The devices that `spacemouse_device_list_foreach(iter, iter)` visits: `iter` itself
and then its successors in the library's list (none for `NULL`; an object that is not in
the list has no successor). -/
def foreach_from (w : World) : Option Nat → List Nat
  | none => []
  | some dev => dev :: (w.devices.dropWhile fun d => decide (d ≠ dev)).drop 1

/-- The call `spacemouse_device_read_event(dev, &mouse_event)`: the next pending answer for the
device; with nothing pending the status is neither `-1` nor success. -/
def read_event (dev : Nat) (st : State) : (ReadStatus × spacemouse_event) × State :=
  let st1 := st.log (Call.device_read_event dev)
  match st.world.reads dev with
  | [] => ((ReadStatus.other, spacemouse_event.other), st1)
  | r :: rest =>
      (r, { st1 with world := { st1.world with reads := Function.update st1.world.reads dev rest } })

/-- The body run for the device whose descriptor is ready (lines 533-587). -/
def service_device (cfg : Config) (dev : Nat) (st : State) : State :=
  let r := read_event dev st
  match r.1 with
  | (ReadStatus.error, _) => device_close dev r.2
  | (ReadStatus.SUCCESS, spacemouse_event.motion m) =>
      let res := motion_loop cfg m r.2.axis
      { r.2 with axis := res.1, trace := r.2.trace ++ res.2.map Call.stdout }
  | (ReadStatus.SUCCESS, spacemouse_event.button bnum press) =>
      r.2.log (Call.stdout (Output.button bnum (press ≠ 0)))
  | _ => r.2

/-- The last branch of the dispatch (lines 529-591): walk the list from `iter` to the
first device that is open and has the ready descriptor and service it (`break`); if there
is none, `iter` ends up `NULL`.  The result is the new `iter` and the new state. -/
def device_branch (cfg : Config) (fd : Int) (iter : Option Nat) (st : State) :
    Option Nat × State :=
  match (foreach_from st.world iter).find? fun dev =>
      decide (st.world.get_fd dev > -1 ∧ fd = st.world.get_fd dev) with
  | none => (none, st)
  | some dev => (some dev, service_device cfg dev st)

/-- The call `spacemouse_monitor(&action)`: the next pending notification (with nothing pending,
an action that is neither add nor remove), and the library's list after the call. -/
def monitor (st : State) : (Action × Nat) × State :=
  let st1 := st.log Call.monitor
  match st.world.notifications with
  | [] => ((Action.other, 0), st1)
  | n :: rest =>
      ((n.action, n.mon_mouse),
        { st1 with world := { st1.world with devices := n.devices_after, notifications := rest } })

/-- The hot-plug branch for `SPACEMOUSE_ACTION_ADD` (lines 478-517); `iter` is the value
set by `iter = spacemouse_device_list()` before the dispatch loop. -/
def hotplug_add (libc : Libc) (cfg : Config) (iter : Option Nat) (mon_mouse : Nat)
    (st : State) : Outcome State :=
  match add_filter libc cfg (st.world.obj mon_mouse) filter_indices 0 with
  | .error msg => fail st msg
  | .ok skip =>
      if skip = 0 then
        let r := device_open mon_mouse st
        if r.1 = -1 then fail r.2 (ErrorMsg.open_failed (r.2.world.obj mon_mouse).devnode)
        else
          let grabbed : Outcome State :=
            if cfg.grab_dev then
              let st2 := r.2.log (Call.device_grab iter)
              if st2.world.grab_result iter ≠ 0 then
                fail st2 (ErrorMsg.grab_failed
                  (match iter with
                   | some dev => (st2.world.obj dev).devnode
                   | none => ""))
              else .cont st2
            else .cont r.2
          grabbed.bind fun st3 =>
            .cont (st3.log (Call.stdout (Output.connect (st3.world.obj mon_mouse).devnode
              (st3.world.obj mon_mouse).manufacturer (st3.world.obj mon_mouse).product)))
      else
        .cont st

/-- The hot-plug branch for `SPACEMOUSE_ACTION_REMOVE` (lines 518-527). -/
def hotplug_remove (mon_mouse : Nat) (st : State) : State :=
  let st1 :=
    if st.world.get_fd mon_mouse > -1 then
      st.log (Call.stdout (Output.disconnect (st.world.obj mon_mouse).devnode
        (st.world.obj mon_mouse).manufacturer (st.world.obj mon_mouse).product))
    else st
  device_close mon_mouse st1

/-- The branch `else if (fds[n].fd == monitor_fd)` (lines 473-527). -/
def hotplug (libc : Libc) (cfg : Config) (iter : Option Nat) (st : State) : Outcome State :=
  let r := monitor st
  match r.1.1 with
  | Action.ADD => hotplug_add libc cfg iter r.1.2 r.2
  | Action.REMOVE => .cont (hotplug_remove r.1.2 r.2)
  | Action.other => .cont r.2

/-- The dispatch loop `for (int n = 0; n < fds_idx; n++)` over the entries of `fds`
(lines 466-592), with the current value of `iter`. -/
def dispatch (libc : Libc) (cfg : Config) (monitor_fd : Int) :
    List pollfd → Option Nat → State → Outcome (Option Nat × State)
  | [], iter, st => .cont (iter, st)
  | f :: rest, iter, st =>
      if f.revents = 0 then
        dispatch libc cfg monitor_fd rest iter st
      else if f.fd = STDOUT_FILENO ∧ f.revents &&& POLLERR ≠ 0 then
        .exit EXIT_ERROR st.trace
      else if f.fd = monitor_fd then
        match hotplug libc cfg iter st with
        | .exit status trace => .exit status trace
        | .cont st1 => dispatch libc cfg monitor_fd rest iter st1
      else
        let r := device_branch cfg f.fd iter st
        dispatch libc cfg monitor_fd rest r.1 r.2

/-- One iteration of `while(1)`: build `fds`, `poll`, `iter = spacemouse_device_list()`,
dispatch.  `revents n` is what `poll` reports for entry `n`. -/
def wake (libc : Libc) (cfg : Config) (monitor_fd : Int) (revents : Nat → Nat)
    (st : State) : Outcome State :=
  let fds := fill_fds monitor_fd st.world
  let st1 := st.log (Call.poll fds)
  let iter := st1.world.devices.head?
  match dispatch libc cfg monitor_fd (set_revents revents 0 fds) iter st1 with
  | .exit status trace => .exit status trace
  | .cont r => .cont r.2

/-- Of the devices `devs`, whose entries of `fds` start at index `n`, those whose entry
`poll` reports ready (`revents != 0`), in order. -/
def ready_from (revents : Nat → Nat) : Nat → List Nat → List Nat
  | _, [] => []
  | n, dev :: rest =>
      if revents n ≠ 0 then dev :: ready_from revents (n + 1) rest
      else ready_from revents (n + 1) rest

/-- The open devices whose entry of `fds` is ready; the entry of the first open device is
`fds[2]`. -/
def ready_devices (revents : Nat → Nat) (w : World) : List Nat :=
  ready_from revents 2 (open_devices w)

/-- A sequence of iterations of `while(1)`, one `poll` answer per iteration. -/
def run_wakes (libc : Libc) (cfg : Config) (monitor_fd : Int) :
    List (Nat → Nat) → State → Outcome State
  | [], st => .cont st
  | revents :: rest, st =>
      (wake libc cfg monitor_fd revents st).bind (run_wakes libc cfg monitor_fd rest)

/-! ## Sample inputs -/

/-- In C: `REG_EXTENDED | REG_NOSUB`, the initial value of `regex_mask` (glibc: `1 | 8`). -/
def REGEX_MASK_DEFAULT : Nat := 9

/-- The configuration of `spacemouse-event --events 4`: count-based mode, `N = 4`. -/
def cfg_events4 : Config :=
  { dev_opt := none, man_opt := none, pro_opt := none, regex_mask := REGEX_MASK_DEFAULT,
    grab_dev := false, min_deviation := MIN_DEVIATION, n_events := 4, millis_period := 0 }

/-- The configuration of `spacemouse-event --millis 1000`: time-based mode, `M = 1000`
(`n_events` holds its default `N_EVENTS`). -/
def cfg_millis1000 : Config :=
  { dev_opt := none, man_opt := none, pro_opt := none, regex_mask := REGEX_MASK_DEFAULT,
    grab_dev := false, min_deviation := MIN_DEVIATION, n_events := N_EVENTS,
    millis_period := 1000 }

/-- A motion reading that moves only the `x` axis. -/
def x_reading (x : Int) (period : Nat) : motion_event :=
  { x := x, y := 0, z := 0, rx := 0, ry := 0, rz := 0, period := period }

/-- Does the text `pat` occur in `s`? -/
def occurs_in (pat : String) (s : String) : Bool :=
  s.toList.tails.any fun t => pat.toList.isPrefixOf t

/-- A stand-in for libc on the patterns of the examples: a pattern made of letters,
digits, `/` and blanks compiles and matches the strings that contain it; the pattern `(`
(an unmatched parenthesis) does not compile (`REG_EPAREN`). -/
def sample_libc : Libc :=
  { regcomp := fun regex _ => if regex = "(" then 8 else 0
    regexec := fun regex _ s => if occurs_in regex s then 0 else 1 }

/-- Three device objects: two 3Dconnexion devices at addresses `1` and `2`, a keyboard of
another manufacturer at address `3`; none is open. -/
def sample_obj (dev : Nat) : spacemouse :=
  match dev with
  | 1 => { devnode := "/dev/input/event5", manufacturer := "3Dconnexion",
           product := "SpaceNavigator", fd := -1 }
  | 2 => { devnode := "/dev/input/event6", manufacturer := "3Dconnexion",
           product := "SpacePilot", fd := -1 }
  | _ => { devnode := "/dev/input/event7", manufacturer := "Logitech",
           product := "Keyboard", fd := -1 }

/-- The sample device objects with devices `1` and `2` open on descriptors `5` and `6`. -/
def sample_obj_open (dev : Nat) : spacemouse :=
  match dev with
  | 1 => { sample_obj 1 with fd := 5 }
  | 2 => { sample_obj 2 with fd := 6 }
  | _ => sample_obj dev

/-- A world with the given device list, notifications and pending reads, in which the
hot-plug channel is descriptor `4`, device `dev` opens on descriptor `dev + 4` and every
grab and LED call succeeds. -/
def sample_world (obj : Nat → spacemouse) (devices : List Nat)
    (notifications : List Notification)
    (reads : Nat → List (ReadStatus × spacemouse_event)) : World :=
  { obj := obj, devices := devices, monitor_open_result := 4,
    open_result := fun dev => (dev : Int) + 4, grab_result := fun _ => 0,
    get_led_result := fun _ => 1, set_led_result := fun _ _ => 0,
    notifications := notifications, reads := reads }

/-- A state of the poll loop on a world, with all-zero axis tables and an empty trace. -/
def sample_state (w : World) : State :=
  { world := w, axis := AxisMaps.init, trace := [] }

/-- Every device has one button press pending. -/
def one_button_press (_ : Nat) : List (ReadStatus × spacemouse_event) :=
  [(ReadStatus.SUCCESS, spacemouse_event.button 0 1)]

/-- The configuration of `spacemouse-event --manufacturer 3Dconnexion` after the trigger
check. -/
def cfg_manufacturer : Config :=
  { dev_opt := none, man_opt := some "3Dconnexion", pro_opt := none,
    regex_mask := REGEX_MASK_DEFAULT, grab_dev := false, min_deviation := MIN_DEVIATION,
    n_events := N_EVENTS, millis_period := 0 }

/-- The configuration of `spacemouse-event --manufacturer "("`: the pattern is not a
valid extended regular expression. -/
def cfg_bad_pattern : Config :=
  { dev_opt := none, man_opt := some "(", pro_opt := none,
    regex_mask := REGEX_MASK_DEFAULT, grab_dev := false, min_deviation := MIN_DEVIATION,
    n_events := 0, millis_period := 0 }

/-- The configuration of `spacemouse-event` without options, after the trigger check. -/
def cfg_default : Config :=
  { dev_opt := none, man_opt := none, pro_opt := none,
    regex_mask := REGEX_MASK_DEFAULT, grab_dev := false, min_deviation := MIN_DEVIATION,
    n_events := N_EVENTS, millis_period := 0 }

/-- A `poll` answer: entry `n` is readable, every other entry is not ready. -/
def ready_at (n : Nat) (m : Nat) : Nat :=
  if m = n then POLLIN else 0

/-- A state of the poll loop with devices `1` and `2` open and a pending remove
notification for device `2`. -/
def sample_remove_state : State :=
  sample_state (sample_world sample_obj_open [1, 2]
    [{ action := Action.REMOVE, mon_mouse := 2, devices_after := [1] }] one_button_press)

/-- A state of the poll loop with devices `1` and `2` open on descriptors `5` and `6` and
nothing pending on the hot-plug channel. -/
def sample_two_open : State :=
  sample_state (sample_world sample_obj_open [1, 2] [] one_button_press)


/-- The writes into `fds` of one loop iteration: the index of each write with the entry
written there (`fds[0]`, `fds[1]`, then `fds[fds_idx++]` for each open device). -/
def fds_writes (monitor_fd : Int) (w : World) : List (Nat × pollfd) :=
  (fill_fds monitor_fd w).enum

/-- The configuration of `spacemouse-event --grab` after the trigger check: no filter
pattern, exclusive access requested. -/
def cfg_grab : Config :=
  { dev_opt := none, man_opt := none, pro_opt := none,
    regex_mask := REGEX_MASK_DEFAULT, grab_dev := true, min_deviation := MIN_DEVIATION,
    n_events := N_EVENTS, millis_period := 0 }

/-- A state of the poll loop with device `1` open, a pending add notification for the
device at address `3`, and a world in which `spacemouse_device_grab` fails for the device
`refused` and succeeds for every other one. -/
def sample_add_state (devices : List Nat) (refused : Option Nat) : State :=
  sample_state
    { sample_world sample_obj_open devices
        [{ action := Action.ADD, mon_mouse := 3, devices_after := devices ++ [3] }]
        one_button_press with
      grab_result := fun dev => if dev = refused then -1 else 0 }

/-- In C: `POLLHUP` of `<poll.h>`. -/
def POLLHUP : Nat := 16

/-- A `poll` answer: the entry of standard output is reported with `POLLHUP` only (no
`POLLERR`), entries `2` and `3` are readable, every other entry is not ready. -/
def hangup_and_ready (m : Nat) : Nat :=
  if m = 0 then POLLHUP else if m = 2 ∨ m = 3 then POLLIN else 0

/-! ## Lemmas on the debounce loop -/

theorem axis_pos_str_injective : ∀ i j : Fin 6, axis_pos_str i = axis_pos_str j → i = j := by
  decide

theorem axis_neg_str_injective : ∀ i j : Fin 6, axis_neg_str i = axis_neg_str j → i = j := by
  decide

theorem axis_pos_str_ne_neg : ∀ i j : Fin 6, axis_pos_str i ≠ axis_neg_str j := by
  decide

/-- The label of a direction of an axis identifies the axis and the direction. -/
theorem event_str_injective (d e : Bool) (i j : Fin 6) (h : event_str d i = event_str e j) :
    d = e ∧ i = j := by
  cases d <;> cases e <;> simp only [event_str, if_true, if_false, Bool.false_eq_true] at h
  · exact ⟨rfl, axis_neg_str_injective i j h⟩
  · exact absurd h.symm (axis_pos_str_ne_neg j i)
  · exact absurd h (axis_pos_str_ne_neg i j)
  · exact ⟨rfl, axis_pos_str_injective i j h⟩

/-- Reading an entry after an assignment. -/
theorem get_set (s : AxisMaps) (d e : Bool) (i j : Fin 6) (x : axis_event) :
    (s.set d j x).get e i = if d = e ∧ j = i then x else s.get e i := by
  by_cases hij : j = i
  · subst hij
    cases d <;> cases e <;> simp [AxisMaps.get, AxisMaps.set]
  · have hji : i ≠ j := fun h => hij h.symm
    cases d <;> cases e <;> simp [AxisMaps.get, AxisMaps.set, hij, Function.update_noteq hji]

/-- An iteration for axis `j` leaves the entries of every other axis alone. -/
theorem axis_iteration_frame (cfg : Config) (ev : motion_event) (i j : Fin 6) (hij : i ≠ j)
    (s : AxisMaps) (d : Bool) :
    (axis_iteration cfg ev j s).1.get d i = s.get d i := by
  have hji : j ≠ i := fun h => hij h.symm
  simp only [axis_iteration, axis_active]
  split_ifs <;> simp [get_set, hji]

/-- An iteration for axis `j` prints at most the two labels of axis `j`. -/
theorem axis_iteration_output (cfg : Config) (ev : motion_event) (j : Fin 6) (s : AxisMaps)
    (o : Output) (ho : o ∈ (axis_iteration cfg ev j s).2) :
    ∃ d, o = Output.motion (event_str d j) := by
  simp only [axis_iteration, axis_active] at ho
  split_ifs at ho <;> simp at ho <;> subst ho
  all_goals first | exact ⟨true, rfl⟩ | exact ⟨false, rfl⟩

/-- What an iteration for axis `i` does to the entries of axis `i`, and what it prints,
depends only on the entries of axis `i`. -/
theorem axis_iteration_local (cfg : Config) (ev : motion_event) (i : Fin 6) (s t : AxisMaps)
    (hp : s.get true i = t.get true i) (hn : s.get false i = t.get false i) :
    (∀ d, (axis_iteration cfg ev i s).1.get d i = (axis_iteration cfg ev i t).1.get d i) ∧
      (axis_iteration cfg ev i s).2 = (axis_iteration cfg ev i t).2 := by
  refine ⟨fun d => ?_, ?_⟩
  · simp only [axis_iteration, axis_active, hp, hn, Bool.not_true, Bool.not_false, get_set]
    cases d <;> split_ifs <;> simp [get_set, hp, hn]
  · simp only [axis_iteration, axis_active, hp, hn, Bool.not_true, Bool.not_false, get_set]
    split_ifs <;> simp

/-- Iterations over axes other than `i` neither change the entries of axis `i` nor print
a label of axis `i`. -/
theorem axis_iterations_not_mem (cfg : Config) (ev : motion_event) (i : Fin 6) :
    ∀ (l : List (Fin 6)) (_ : i ∉ l) (acc : AxisMaps × List Output),
      (∀ d, (axis_iterations cfg ev l acc).1.get d i = acc.1.get d i) ∧
      (∀ e, Output.motion (event_str e i) ∈ (axis_iterations cfg ev l acc).2 ↔
        Output.motion (event_str e i) ∈ acc.2) := by
  intro l
  induction l with
  | nil => intro _ acc; simp [axis_iterations]
  | cons j rest ih =>
    intro hi acc
    have hij : i ≠ j := fun h => hi (by simp [h])
    have hrest : i ∉ rest := fun h => hi (by simp [h])
    obtain ⟨h1, h2⟩ := ih hrest ((axis_iteration cfg ev j acc.1).1,
      acc.2 ++ (axis_iteration cfg ev j acc.1).2)
    refine ⟨fun d => ?_, fun e => ?_⟩
    · simp only [axis_iterations]
      rw [h1 d]
      exact axis_iteration_frame cfg ev i j hij acc.1 d
    · simp only [axis_iterations]
      rw [h2 e, List.mem_append]
      constructor
      · rintro (h | h)
        · exact h
        · obtain ⟨d, hd⟩ := axis_iteration_output cfg ev j acc.1 _ h
          have := event_str_injective e d i j (by simpa using hd)
          exact absurd this.2 hij
      · exact fun h => Or.inl h

/-- In a loop over distinct axes that include `i`, the entries of axis `i` and the labels
of axis `i` that get printed are those of the single iteration for axis `i`. -/
theorem axis_iterations_mem (cfg : Config) (ev : motion_event) (i : Fin 6) :
    ∀ (l : List (Fin 6)) (_ : l.Nodup) (_ : i ∈ l) (acc : AxisMaps × List Output),
      (∀ d, (axis_iterations cfg ev l acc).1.get d i =
        (axis_iteration cfg ev i acc.1).1.get d i) ∧
      (∀ e, Output.motion (event_str e i) ∈ (axis_iterations cfg ev l acc).2 ↔
        (Output.motion (event_str e i) ∈ acc.2 ∨
          Output.motion (event_str e i) ∈ (axis_iteration cfg ev i acc.1).2)) := by
  intro l
  induction l with
  | nil => intro _ hi; simp at hi
  | cons j rest ih =>
    intro hnd hi acc
    have hjr : j ∉ rest := (List.nodup_cons.mp hnd).1
    have hndr : rest.Nodup := (List.nodup_cons.mp hnd).2
    by_cases hij : i = j
    · subst hij
      obtain ⟨h1, h2⟩ := axis_iterations_not_mem cfg ev i rest hjr
        ((axis_iteration cfg ev i acc.1).1, acc.2 ++ (axis_iteration cfg ev i acc.1).2)
      refine ⟨fun d => ?_, fun e => ?_⟩
      · simp only [axis_iterations]
        exact h1 d
      · simp only [axis_iterations]
        rw [h2 e, List.mem_append]
    · have hir : i ∈ rest := by
        rcases List.mem_cons.mp hi with h | h
        · exact absurd h hij
        · exact h
      obtain ⟨h1, h2⟩ := ih hndr hir ((axis_iteration cfg ev j acc.1).1,
        acc.2 ++ (axis_iteration cfg ev j acc.1).2)
      obtain ⟨l1, l2⟩ := axis_iteration_local cfg ev i (axis_iteration cfg ev j acc.1).1 acc.1
        (axis_iteration_frame cfg ev i j hij acc.1 true)
        (axis_iteration_frame cfg ev i j hij acc.1 false)
      refine ⟨fun d => ?_, fun e => ?_⟩
      · simp only [axis_iterations]
        rw [h1 d]
        exact l1 d
      · simp only [axis_iterations]
        rw [h2 e, List.mem_append]
        simp only [l2]
        constructor
        · rintro ((h | h) | h)
          · exact Or.inl h
          · obtain ⟨d, hd⟩ := axis_iteration_output cfg ev j acc.1 _ h
            have := event_str_injective e d i j (by simpa using hd)
            exact absurd this.2 hij
          · exact Or.inr h
        · rintro (h | h)
          · exact Or.inl (Or.inl h)
          · exact Or.inr h

/-- One reading, seen from axis `i`: the loop does to axis `i` what the iteration for
axis `i` alone does, and prints a label of axis `i` exactly when that iteration does. -/
theorem motion_loop_axis (cfg : Config) (ev : motion_event) (s : AxisMaps) (i : Fin 6) :
    (∀ d, (motion_loop cfg ev s).1.get d i = (axis_iteration cfg ev i s).1.get d i) ∧
    (∀ e, Output.motion (event_str e i) ∈ (motion_loop cfg ev s).2 ↔
      Output.motion (event_str e i) ∈ (axis_iteration cfg ev i s).2) := by
  have hnd : axes.Nodup := by decide
  have hi : i ∈ axes := by
    revert i
    decide
  obtain ⟨h1, h2⟩ := axis_iterations_mem cfg ev i axes hnd hi (s, [])
  refine ⟨h1, fun e => ?_⟩
  have := h2 e
  simpa [motion_loop] using this

/-- The sample on axis `i` selects direction `d`: `d = true` when it exceeds the
deviation, `d = false` when it is below the negated deviation. -/
theorem axis_iteration_active (cfg : Config) (hT : 1 ≤ cfg.min_deviation) (ev : motion_event)
    (i : Fin 6) (s : AxisMaps) (d : Bool)
    (hact : (d = true ∧ int_ptr ev i > cfg.min_deviation) ∨
      (d = false ∧ int_ptr ev i < -cfg.min_deviation)) :
    axis_iteration cfg ev i s = axis_active cfg ev.period d i s := by
  rcases hact with ⟨hd, hv⟩ | ⟨hd, hv⟩
  · subst hd
    simp [axis_iteration, hv]
  · subst hd
    have h1 : ¬ int_ptr ev i > cfg.min_deviation := by omega
    have h2 : int_ptr ev i < -1 * cfg.min_deviation := by omega
    simp only [axis_iteration, h1, h2, if_true, if_false]

/-- The active branch in count-based mode. -/
theorem axis_active_count (cfg : Config) (hmode : cfg.millis_period = 0) (period : Nat)
    (d : Bool) (i : Fin 6) (s : AxisMaps) :
    (axis_active cfg period d i s).1.get d i =
        { n_events := ((s.get d i).n_events + 1) % UINT_SIZE, millis := (s.get d i).millis } ∧
      (axis_active cfg period d i s).1.get (!d) i =
        { n_events := 0, millis := (s.get (!d) i).millis } ∧
      (Output.motion (event_str d i) ∈ (axis_active cfg period d i s).2 ↔
        ((s.get d i).n_events + 1) % UINT_SIZE % cfg.n_events = 0) ∧
      Output.motion (event_str (!d) i) ∉ (axis_active cfg period d i s).2 := by
  have hne : event_str (!d) i ≠ event_str d i := fun h => by
    have := (event_str_injective (!d) d i i h).1
    cases d <;> simp at this
  simp only [axis_active, hmode, ne_eq, not_true_eq_false, if_false]
  split_ifs with h <;> cases d <;> simp_all [get_set]

/-- The active branch in time-based mode. -/
theorem axis_active_millis (cfg : Config) (hmode : cfg.millis_period ≠ 0) (period : Nat)
    (d : Bool) (i : Fin 6) (s : AxisMaps) :
    (axis_active cfg period d i s).1.get d i =
        { n_events := (s.get d i).n_events,
          millis :=
            if ((s.get d i).millis + period) % UINT_SIZE > cfg.millis_period then
              ((s.get d i).millis + period) % UINT_SIZE % cfg.millis_period
            else ((s.get d i).millis + period) % UINT_SIZE } ∧
      (axis_active cfg period d i s).1.get (!d) i = s.get (!d) i ∧
      (Output.motion (event_str d i) ∈ (axis_active cfg period d i s).2 ↔
        ((s.get d i).millis + period) % UINT_SIZE > cfg.millis_period) ∧
      Output.motion (event_str (!d) i) ∉ (axis_active cfg period d i s).2 := by
  have hne : event_str (!d) i ≠ event_str d i := fun h => by
    have := (event_str_injective (!d) d i i h).1
    cases d <;> simp at this
  simp only [axis_active, hmode, ne_eq, not_false_eq_true, if_true]
  split_ifs with h <;> cases d <;> simp_all [get_set]

/-- The neutral branch: all four members of the axis are cleared and nothing is printed. -/
theorem axis_iteration_neutral (cfg : Config) (ev : motion_event) (i : Fin 6) (s : AxisMaps)
    (hlo : -cfg.min_deviation ≤ int_ptr ev i) (hhi : int_ptr ev i ≤ cfg.min_deviation) :
    (∀ d, (axis_iteration cfg ev i s).1.get d i = { n_events := 0, millis := 0 }) ∧
      (axis_iteration cfg ev i s).2 = [] := by
  have h1 : ¬ int_ptr ev i > cfg.min_deviation := by omega
  have h2 : ¬ int_ptr ev i < -1 * cfg.min_deviation := by omega
  refine ⟨fun d => ?_, ?_⟩
  · simp only [axis_iteration, h1, h2, if_false]
    cases d <;> simp [get_set]
  · simp only [axis_iteration, h1, h2, if_false]

/-- One reading in count-based mode, seen from an axis whose sample is active. -/
theorem motion_loop_count (cfg : Config) (hmode : cfg.millis_period = 0)
    (hT : 1 ≤ cfg.min_deviation) (ev : motion_event) (i : Fin 6) (s : AxisMaps) (d : Bool)
    (hact : (d = true ∧ int_ptr ev i > cfg.min_deviation) ∨
      (d = false ∧ int_ptr ev i < -cfg.min_deviation)) :
    (motion_loop cfg ev s).1.get d i =
        { n_events := ((s.get d i).n_events + 1) % UINT_SIZE, millis := (s.get d i).millis } ∧
      (motion_loop cfg ev s).1.get (!d) i =
        { n_events := 0, millis := (s.get (!d) i).millis } ∧
      (Output.motion (event_str d i) ∈ (motion_loop cfg ev s).2 ↔
        ((s.get d i).n_events + 1) % UINT_SIZE % cfg.n_events = 0) ∧
      Output.motion (event_str (!d) i) ∉ (motion_loop cfg ev s).2 := by
  obtain ⟨h1, h2⟩ := motion_loop_axis cfg ev s i
  have hit := axis_iteration_active cfg hT ev i s d hact
  obtain ⟨a1, a2, a3, a4⟩ := axis_active_count cfg hmode ev.period d i s
  rw [h1 d, h1 (!d), h2 d, h2 (!d), hit]
  exact ⟨a1, a2, a3, a4⟩

/-- One reading in time-based mode, seen from an axis whose sample is active. -/
theorem motion_loop_millis (cfg : Config) (hmode : cfg.millis_period ≠ 0)
    (hT : 1 ≤ cfg.min_deviation) (ev : motion_event) (i : Fin 6) (s : AxisMaps) (d : Bool)
    (hact : (d = true ∧ int_ptr ev i > cfg.min_deviation) ∨
      (d = false ∧ int_ptr ev i < -cfg.min_deviation)) :
    (motion_loop cfg ev s).1.get d i =
        { n_events := (s.get d i).n_events,
          millis :=
            if ((s.get d i).millis + ev.period) % UINT_SIZE > cfg.millis_period then
              ((s.get d i).millis + ev.period) % UINT_SIZE % cfg.millis_period
            else ((s.get d i).millis + ev.period) % UINT_SIZE } ∧
      (motion_loop cfg ev s).1.get (!d) i = s.get (!d) i ∧
      (Output.motion (event_str d i) ∈ (motion_loop cfg ev s).2 ↔
        ((s.get d i).millis + ev.period) % UINT_SIZE > cfg.millis_period) ∧
      Output.motion (event_str (!d) i) ∉ (motion_loop cfg ev s).2 := by
  obtain ⟨h1, h2⟩ := motion_loop_axis cfg ev s i
  have hit := axis_iteration_active cfg hT ev i s d hact
  obtain ⟨a1, a2, a3, a4⟩ := axis_active_millis cfg hmode ev.period d i s
  rw [h1 d, h1 (!d), h2 d, h2 (!d), hit]
  exact ⟨a1, a2, a3, a4⟩

theorem feed_cons (cfg : Config) (s : AxisMaps) (ev : motion_event) (evs : List motion_event) :
    feed cfg s (ev :: evs) = feed cfg (motion_loop cfg ev s).1 evs := rfl

theorem feed_append_singleton (cfg : Config) (s : AxisMaps) (evs : List motion_event)
    (ev : motion_event) :
    feed cfg s (evs ++ [ev]) = (motion_loop cfg ev (feed cfg s evs)).1 := by
  simp [feed, List.foldl_append]

/-- A run of readings that keep direction `d` of axis `i` active, in count-based mode:
the counter of `d` advances by the length of the run (modulo `2 ^ 32`). -/
theorem feed_count_run (cfg : Config) (hmode : cfg.millis_period = 0)
    (hT : 1 ≤ cfg.min_deviation) (i : Fin 6) (d : Bool) :
    ∀ (evs : List motion_event) (s : AxisMaps),
      (∀ ev ∈ evs, (d = true ∧ int_ptr ev i > cfg.min_deviation) ∨
        (d = false ∧ int_ptr ev i < -cfg.min_deviation)) →
      (s.get d i).n_events < UINT_SIZE →
      ((feed cfg s evs).get d i).n_events = ((s.get d i).n_events + evs.length) % UINT_SIZE := by
  intro evs
  induction evs with
  | nil =>
    intro s _ hs
    simp [feed, Nat.mod_eq_of_lt hs]
  | cons ev rest ih =>
    intro s hall hs
    have hev := hall ev (by simp)
    have hrest : ∀ e ∈ rest, (d = true ∧ int_ptr e i > cfg.min_deviation) ∨
        (d = false ∧ int_ptr e i < -cfg.min_deviation) := fun e he => hall e (by simp [he])
    obtain ⟨a1, _, _, _⟩ := motion_loop_count cfg hmode hT ev i s d hev
    have hlt : (((motion_loop cfg ev s).1).get d i).n_events < UINT_SIZE := by
      rw [a1]
      exact Nat.mod_lt _ (by decide)
    rw [feed_cons, ih _ hrest hlt, a1]
    simp only [UINT_SIZE, List.length_cons]
    omega

/-- After a non-empty run of readings that keep direction `d` of axis `i` active, in
count-based mode, the counter of the opposite direction is `0`. -/
theorem feed_count_run_inverse (cfg : Config) (hmode : cfg.millis_period = 0)
    (hT : 1 ≤ cfg.min_deviation) (i : Fin 6) (d : Bool) (evs : List motion_event)
    (last : motion_event) (s : AxisMaps)
    (hlast : (d = true ∧ int_ptr last i > cfg.min_deviation) ∨
        (d = false ∧ int_ptr last i < -cfg.min_deviation)) :
    ((feed cfg s (evs ++ [last])).get (!d) i).n_events = 0 := by
  rw [feed_append_singleton]
  obtain ⟨_, a2, _, _⟩ := motion_loop_count cfg hmode hT last i (feed cfg s evs) d hlast
  rw [a2]

/-- An iteration for axis `j` reads only the sample of axis `j` and the period. -/
theorem axis_iteration_congr (cfg : Config) (ev ev' : motion_event) (j : Fin 6) (s : AxisMaps)
    (hv : int_ptr ev' j = int_ptr ev j) (hp : ev'.period = ev.period) :
    axis_iteration cfg ev' j s = axis_iteration cfg ev j s := by
  simp only [axis_iteration, hv, hp]

/-- What a reading does to axis `j` is decided by the entries of axis `j`, the sample of
axis `j` and the period alone. -/
theorem motion_loop_local (cfg : Config) (ev ev' : motion_event) (s s' : AxisMaps) (j : Fin 6)
    (hpos : s'.axis_pos_map j = s.axis_pos_map j) (hneg : s'.axis_neg_map j = s.axis_neg_map j)
    (hv : int_ptr ev' j = int_ptr ev j) (hp : ev'.period = ev.period) :
    (motion_loop cfg ev' s').1.axis_pos_map j = (motion_loop cfg ev s).1.axis_pos_map j ∧
      (motion_loop cfg ev' s').1.axis_neg_map j = (motion_loop cfg ev s).1.axis_neg_map j ∧
      ∀ e, Output.motion (event_str e j) ∈ (motion_loop cfg ev' s').2 ↔
        Output.motion (event_str e j) ∈ (motion_loop cfg ev s).2 := by
  obtain ⟨h1, h2⟩ := motion_loop_axis cfg ev s j
  obtain ⟨h1', h2'⟩ := motion_loop_axis cfg ev' s' j
  obtain ⟨l1, l2⟩ := axis_iteration_local cfg ev j s' s
    (by simpa [AxisMaps.get] using hpos) (by simpa [AxisMaps.get] using hneg)
  have hc := axis_iteration_congr cfg ev ev' j s' hv hp
  have hget : ∀ d, (motion_loop cfg ev' s').1.get d j = (motion_loop cfg ev s).1.get d j := by
    intro d
    rw [h1' d, h1 d, hc]
    exact l1 d
  refine ⟨by simpa [AxisMaps.get] using hget true, by simpa [AxisMaps.get] using hget false,
    fun e => ?_⟩
  rw [h2' e, h2 e, hc, l2]

theorem mem_filter_indices : ∀ n : Fin 3, n ∈ filter_indices := by
  decide

/-! ## Lemmas on the dispatch loop -/

/-- The two filter loops with only a manufacturer pattern configured, and the pattern
accepted by `regcomp`: the initial scan skips the device when `regexec` answers `1` (no
match); the hot-plug add branch skips it when `regexec` answers `0` (match). -/
theorem filters_manufacturer_only (libc : Libc) (cfg : Config) (dev : spacemouse)
    (pat : String) (hd : cfg.dev_opt = none) (hm : cfg.man_opt = some pat)
    (hp : cfg.pro_opt = none) (hc : libc.regcomp pat cfg.regex_mask = 0)
    (hr : libc.regexec pat cfg.regex_mask dev.manufacturer ≠ -1) :
    scan_filter libc cfg dev filter_indices 0 =
        .ok (if libc.regexec pat cfg.regex_mask dev.manufacturer = 1 then 1 else 0) ∧
      add_filter libc cfg dev filter_indices 0 =
        .ok (if libc.regexec pat cfg.regex_mask dev.manufacturer = 0 then 1 else 0) := by
  have o0 : opts cfg 0 = none := hd
  have o1 : opts cfg 1 = some pat := hm
  have o2 : opts cfg 2 = none := hp
  have m1 : members dev 1 = dev.manufacturer := rfl
  constructor
  · simp only [filter_indices, scan_filter, o0, o1, o2, m1, run_regex, hc, ne_eq,
      not_true_eq_false, if_false, hr]
    split_ifs <;> rfl
  · simp only [filter_indices, add_filter, o0, o1, o2, m1, run_regex, hc, ne_eq,
      not_true_eq_false, if_false, hr]
    split_ifs <;> rfl

/-- C1: count-based mode, `N >= 1`, `T >= 1`.  Starting from the all-zero axis state,
if `k = pre.length + 1` consecutive motion readings (`k < 2 ^ 32`) all have the same sample
`v > T` on axis `i`, then the `k`-th reading prints the motion event of the positive
direction of axis `i` if and only if `N` divides `k`, and after the `k` readings the
positive counter of the axis is `k` (printing does not reset it). -/
theorem C1_count_mode_fires_every_Nth (cfg : Config) (hmode : cfg.millis_period = 0)
    (_hN : 1 ≤ cfg.n_events) (hT : 1 ≤ cfg.min_deviation) (i : Fin 6) (v : Int)
    (hv : v > cfg.min_deviation) (pre : List motion_event) (last : motion_event)
    (hall : ∀ ev ∈ pre ++ [last], int_ptr ev i = v) (hk : pre.length + 1 < 2 ^ 32) :
    (Output.motion (axis_pos_str i) ∈ (motion_loop cfg last (feed cfg AxisMaps.init pre)).2 ↔
        cfg.n_events ∣ pre.length + 1) ∧
      ((feed cfg AxisMaps.init (pre ++ [last])).axis_pos_map i).n_events = pre.length + 1 := by
  have hpre : ∀ ev ∈ pre, (true = true ∧ int_ptr ev i > cfg.min_deviation) ∨
      (true = false ∧ int_ptr ev i < -cfg.min_deviation) := fun ev hev =>
    Or.inl ⟨rfl, by rw [hall ev (by simp [hev])]; exact hv⟩
  have hlast : (true = true ∧ int_ptr last i > cfg.min_deviation) ∨
      (true = false ∧ int_ptr last i < -cfg.min_deviation) :=
    Or.inl ⟨rfl, by rw [hall last (by simp)]; exact hv⟩
  have h0 : (AxisMaps.init.get true i).n_events < UINT_SIZE := by
    simp [AxisMaps.init, AxisMaps.get, UINT_SIZE]
  have hrun := feed_count_run cfg hmode hT i true pre AxisMaps.init hpre h0
  have hzero : (AxisMaps.init.get true i).n_events = 0 := by simp [AxisMaps.init, AxisMaps.get]
  rw [hzero, Nat.zero_add] at hrun
  obtain ⟨a1, _, a3, _⟩ :=
    motion_loop_count cfg hmode hT last i (feed cfg AxisMaps.init pre) true hlast
  have hcnt : (((feed cfg AxisMaps.init pre).get true i).n_events + 1) % UINT_SIZE
      = pre.length + 1 := by
    rw [hrun]
    simp only [UINT_SIZE]
    omega
  refine ⟨?_, ?_⟩
  · have : event_str true i = axis_pos_str i := by simp [event_str]
    rw [← this, a3, hcnt]
    exact (Nat.dvd_iff_mod_eq_zero ..).symm
  · rw [feed_append_singleton]
    have hget : (motion_loop cfg last (feed cfg AxisMaps.init pre)).1.axis_pos_map i =
        (motion_loop cfg last (feed cfg AxisMaps.init pre)).1.get true i := by
      simp [AxisMaps.get]
    rw [hget, a1]
    exact hcnt

/-- C1, at `N = 4`: the 4th of four readings with `x = 300 > 256` prints `right` (4
divides 4) and leaves the positive counter of the `x` axis at `4`. -/
theorem C1_count_mode_fires_every_Nth_witness :
    (Output.motion (axis_pos_str 0) ∈
        (motion_loop cfg_events4 (x_reading 300 8)
          (feed cfg_events4 AxisMaps.init
            [x_reading 300 8, x_reading 300 8, x_reading 300 8])).2 ↔
        cfg_events4.n_events ∣
          [x_reading 300 8, x_reading 300 8, x_reading 300 8].length + 1) ∧
      ((feed cfg_events4 AxisMaps.init
        ([x_reading 300 8, x_reading 300 8, x_reading 300 8] ++
          [x_reading 300 8])).axis_pos_map 0).n_events =
        [x_reading 300 8, x_reading 300 8, x_reading 300 8].length + 1 :=
  C1_count_mode_fires_every_Nth cfg_events4 rfl (by decide) (by decide) 0 300 (by decide)
    [x_reading 300 8, x_reading 300 8, x_reading 300 8] (x_reading 300 8)
    (by decide) (by decide)

/-- With `N = 4`, twelve consecutive readings above the deviation on the `x` axis print
`right` on exactly the 4th, 8th and 12th reading. -/
theorem count_mode_twelve_samples :
    feed_output cfg_events4 AxisMaps.init (List.replicate 12 (x_reading 300 8)) =
      [[], [], [], [Output.motion "right"], [], [], [], [Output.motion "right"],
        [], [], [], [Output.motion "right"]] := by
  decide

/-! ## Time-based mode -/

/-- C3 as stated fails on the code: the accumulator is an `unsigned int`, so the sum
`e + p` wraps at `2 ^ 32`.  With `M = 1000`, one reading of period `1` on the `x` axis
leaves `e = 1`; a further reading of period `4294967295` has `e + p = 2 ^ 32 > M`, yet the
code prints nothing and leaves the accumulator at `0`, not at `(e + p) mod M = 296`. -/
theorem C3_counterexample :
    int_ptr (x_reading 300 4294967295) 0 > cfg_millis1000.min_deviation ∧
      ((feed cfg_millis1000 AxisMaps.init [x_reading 300 1]).axis_pos_map 0).millis = 1 ∧
      1 + (x_reading 300 4294967295).period > cfg_millis1000.millis_period ∧
      Output.motion (axis_pos_str 0) ∉
        (motion_loop cfg_millis1000 (x_reading 300 4294967295)
          (feed cfg_millis1000 AxisMaps.init [x_reading 300 1])).2 ∧
      ((motion_loop cfg_millis1000 (x_reading 300 4294967295)
          (feed cfg_millis1000 AxisMaps.init [x_reading 300 1])).1.axis_pos_map 0).millis = 0 ∧
      (1 + (x_reading 300 4294967295).period) % cfg_millis1000.millis_period = 296 := by
  decide

/-- C3, amended: time-based mode, `M >= 1`, `T >= 1`.  For a reading whose sample on axis
`i` is active in direction `d`, with `e` the accumulated `millis` of that direction before
the reading and `p` the period of the reading, and provided `e + p < 2 ^ 32` (the unsigned
sum does not wrap): the event of the active direction is printed if and only if
`e + p > M`; when printed the accumulator becomes `(e + p) mod M`, otherwise `e + p`. -/
theorem C3_time_mode_threshold (cfg : Config) (hM : 1 ≤ cfg.millis_period)
    (hT : 1 ≤ cfg.min_deviation) (s : AxisMaps) (ev : motion_event) (i : Fin 6) (d : Bool)
    (hact : (d = true ∧ int_ptr ev i > cfg.min_deviation) ∨
      (d = false ∧ int_ptr ev i < -cfg.min_deviation))
    (hnowrap : (s.get d i).millis + ev.period < 2 ^ 32) :
    (Output.motion (event_str d i) ∈ (motion_loop cfg ev s).2 ↔
        (s.get d i).millis + ev.period > cfg.millis_period) ∧
      ((motion_loop cfg ev s).1.get d i).millis =
        if (s.get d i).millis + ev.period > cfg.millis_period then
          ((s.get d i).millis + ev.period) % cfg.millis_period
        else (s.get d i).millis + ev.period := by
  have hmode : cfg.millis_period ≠ 0 := by omega
  obtain ⟨a1, _, a3, _⟩ := motion_loop_millis cfg hmode hT ev i s d hact
  have hmod : ((s.get d i).millis + ev.period) % UINT_SIZE = (s.get d i).millis + ev.period :=
    Nat.mod_eq_of_lt (by simpa [UINT_SIZE] using hnowrap)
  rw [hmod] at a1 a3
  exact ⟨a3, by rw [a1]⟩

/-- C3, at `M = 1000`: from the all-zero state a reading of period `1200` above the
deviation on the `x` axis prints `right` and leaves `200`. -/
theorem C3_time_mode_threshold_witness :
    (Output.motion (event_str true 0) ∈
        (motion_loop cfg_millis1000 (x_reading 300 1200) AxisMaps.init).2 ↔
        (AxisMaps.init.get true 0).millis + (x_reading 300 1200).period >
          cfg_millis1000.millis_period) ∧
      ((motion_loop cfg_millis1000 (x_reading 300 1200) AxisMaps.init).1.get true 0).millis =
        if (AxisMaps.init.get true 0).millis + (x_reading 300 1200).period >
            cfg_millis1000.millis_period then
          ((AxisMaps.init.get true 0).millis + (x_reading 300 1200).period) %
            cfg_millis1000.millis_period
        else (AxisMaps.init.get true 0).millis + (x_reading 300 1200).period :=
  C3_time_mode_threshold cfg_millis1000 (by decide) (by decide) AxisMaps.init
    (x_reading 300 1200) 0 true (Or.inl ⟨rfl, by decide⟩) (by decide)

/-- With `M = 1000`: accumulating `1200` ms prints once and carries `200` forward; a
further `900` ms prints again (`1100 > 1000`) and carries `100`. -/
theorem time_mode_carry_example :
    feed_output cfg_millis1000 AxisMaps.init [x_reading 300 1200, x_reading 300 900] =
        [[Output.motion "right"], [Output.motion "right"]] ∧
      ((feed cfg_millis1000 AxisMaps.init [x_reading 300 1200]).axis_pos_map 0).millis = 200 ∧
      ((feed cfg_millis1000 AxisMaps.init
        [x_reading 300 1200, x_reading 300 900]).axis_pos_map 0).millis = 100 := by
  decide

/-! ## Neutral samples -/

/-- C4: for every deviation `T >= 1`, every prior axis state and either trigger mode, a
reading whose sample `v` on axis `i` satisfies `-T <= v <= T` (the bounds included) sets the
positive and negative `n_events` and `millis` of that axis to zero and prints no event of
that axis; and what the reading does to any other axis `j` (its entries afterwards, the
events of `j` printed) is decided by the entries of `j`, the sample of `j` and the period
alone, whatever the state and sample of the remaining axes. -/
theorem C4_neutral_sample_resets_axis (cfg : Config) (_hT : 1 ≤ cfg.min_deviation)
    (s : AxisMaps) (ev : motion_event) (i : Fin 6)
    (hlo : -cfg.min_deviation ≤ int_ptr ev i) (hhi : int_ptr ev i ≤ cfg.min_deviation) :
    (motion_loop cfg ev s).1.axis_pos_map i = { n_events := 0, millis := 0 } ∧
      (motion_loop cfg ev s).1.axis_neg_map i = { n_events := 0, millis := 0 } ∧
      Output.motion (axis_pos_str i) ∉ (motion_loop cfg ev s).2 ∧
      Output.motion (axis_neg_str i) ∉ (motion_loop cfg ev s).2 ∧
      ∀ j, j ≠ i → ∀ (s' : AxisMaps) (ev' : motion_event),
        s'.axis_pos_map j = s.axis_pos_map j → s'.axis_neg_map j = s.axis_neg_map j →
        int_ptr ev' j = int_ptr ev j → ev'.period = ev.period →
        (motion_loop cfg ev' s').1.axis_pos_map j = (motion_loop cfg ev s).1.axis_pos_map j ∧
          (motion_loop cfg ev' s').1.axis_neg_map j = (motion_loop cfg ev s).1.axis_neg_map j ∧
          ∀ e, Output.motion (event_str e j) ∈ (motion_loop cfg ev' s').2 ↔
            Output.motion (event_str e j) ∈ (motion_loop cfg ev s).2 := by
  obtain ⟨h1, h2⟩ := motion_loop_axis cfg ev s i
  obtain ⟨n1, n2⟩ := axis_iteration_neutral cfg ev i s hlo hhi
  have hp := h1 true
  have hn := h1 false
  rw [n1 true] at hp
  rw [n1 false] at hn
  have ep := h2 true
  have en := h2 false
  rw [n2] at ep en
  refine ⟨by simpa [AxisMaps.get] using hp, by simpa [AxisMaps.get] using hn, ?_, ?_, ?_⟩
  · have : ¬ Output.motion (event_str true i) ∈ (motion_loop cfg ev s).2 := by
      rw [ep]; simp
    simpa [event_str] using this
  · have : ¬ Output.motion (event_str false i) ∈ (motion_loop cfg ev s).2 := by
      rw [en]; simp
    simpa [event_str] using this
  · intro j _ s' ev' hpos hneg hv hper
    exact motion_loop_local cfg ev ev' s s' j hpos hneg hv hper

/-- C4, at `T = 256` in count-based mode: after three readings at `x = 300`, a reading with
`x = 256` exactly clears the `x` axis. -/
theorem C4_neutral_sample_resets_axis_witness :
    (motion_loop cfg_events4 (x_reading 256 8)
        (feed cfg_events4 AxisMaps.init
          [x_reading 300 8, x_reading 300 8, x_reading 300 8])).1.axis_pos_map 0 =
        { n_events := 0, millis := 0 } ∧
      (motion_loop cfg_events4 (x_reading 256 8)
        (feed cfg_events4 AxisMaps.init
          [x_reading 300 8, x_reading 300 8, x_reading 300 8])).1.axis_neg_map 0 =
        { n_events := 0, millis := 0 } ∧
      Output.motion (axis_pos_str 0) ∉
        (motion_loop cfg_events4 (x_reading 256 8)
          (feed cfg_events4 AxisMaps.init
            [x_reading 300 8, x_reading 300 8, x_reading 300 8])).2 ∧
      Output.motion (axis_neg_str 0) ∉
        (motion_loop cfg_events4 (x_reading 256 8)
          (feed cfg_events4 AxisMaps.init
            [x_reading 300 8, x_reading 300 8, x_reading 300 8])).2 :=
  have h := C4_neutral_sample_resets_axis cfg_events4 (by decide)
    (feed cfg_events4 AxisMaps.init [x_reading 300 8, x_reading 300 8, x_reading 300 8])
    (x_reading 256 8) 0 (by decide) (by decide)
  ⟨h.1, h.2.1, h.2.2.1, h.2.2.2.1⟩

/-! ## Switching direction -/

/-- C5: count-based mode, `N >= 1` (`N` a C `int`).  If axis `i` has received one or more
consecutive readings above `T` (`ps ++ [p]`, from any prior state) and then readings below
`-T` with no neutral reading in between (`ns ++ [last]`, at most `N` of them), then after
each of these negative readings the positive counter of the axis is `0`, and the negative
event is printed by the reading if and only if it is the `N`-th consecutive negative
reading: none of the first `N - 1` prints it, the `N`-th does. -/
theorem C5_direction_switch_restarts_count (cfg : Config) (hmode : cfg.millis_period = 0)
    (_hN : 1 ≤ cfg.n_events) (hNint : cfg.n_events ≤ INT_MAX) (hT : 1 ≤ cfg.min_deviation)
    (i : Fin 6) (s0 : AxisMaps) (ps : List motion_event) (p : motion_event)
    (hps : ∀ ev ∈ ps ++ [p], int_ptr ev i > cfg.min_deviation)
    (ns : List motion_event) (last : motion_event)
    (hns : ∀ ev ∈ ns ++ [last], int_ptr ev i < -cfg.min_deviation)
    (hlen : ns.length + 1 ≤ cfg.n_events) :
    ((motion_loop cfg last (feed cfg (feed cfg s0 (ps ++ [p])) ns)).1.axis_pos_map i).n_events
        = 0 ∧
      (Output.motion (axis_neg_str i) ∈
          (motion_loop cfg last (feed cfg (feed cfg s0 (ps ++ [p])) ns)).2 ↔
        ns.length + 1 = cfg.n_events) := by
  have hp : (true = true ∧ int_ptr p i > cfg.min_deviation) ∨
      (true = false ∧ int_ptr p i < -cfg.min_deviation) :=
    Or.inl ⟨rfl, hps p (by simp)⟩
  have hnegs : ∀ ev ∈ ns, (false = true ∧ int_ptr ev i > cfg.min_deviation) ∨
      (false = false ∧ int_ptr ev i < -cfg.min_deviation) := fun ev hev =>
    Or.inr ⟨rfl, hns ev (by simp [hev])⟩
  have hlast : (false = true ∧ int_ptr last i > cfg.min_deviation) ∨
      (false = false ∧ int_ptr last i < -cfg.min_deviation) :=
    Or.inr ⟨rfl, hns last (by simp)⟩
  have hz := feed_count_run_inverse cfg hmode hT i true ps p s0 hp
  simp only [Bool.not_true] at hz
  have hrun := feed_count_run cfg hmode hT i false ns (feed cfg s0 (ps ++ [p])) hnegs
    (by rw [hz]; decide)
  rw [hz, Nat.zero_add] at hrun
  obtain ⟨_, a2, a3, _⟩ := motion_loop_count cfg hmode hT last i
    (feed cfg (feed cfg s0 (ps ++ [p])) ns) false hlast
  simp only [Bool.not_false] at a2
  have hint : cfg.n_events < 4294967296 := by
    have : INT_MAX = 2147483647 := by decide
    omega
  have hcnt : (((feed cfg (feed cfg s0 (ps ++ [p])) ns).get false i).n_events + 1) % UINT_SIZE
      = ns.length + 1 := by
    rw [hrun]
    simp only [UINT_SIZE]
    omega
  refine ⟨?_, ?_⟩
  · have hget : (motion_loop cfg last (feed cfg (feed cfg s0 (ps ++ [p])) ns)).1.axis_pos_map i
        = (motion_loop cfg last (feed cfg (feed cfg s0 (ps ++ [p])) ns)).1.get true i := by
      simp [AxisMaps.get]
    rw [hget, a2]
  · have : event_str false i = axis_neg_str i := by simp [event_str]
    rw [← this, a3, hcnt]
    constructor
    · intro h
      have hdvd : cfg.n_events ∣ ns.length + 1 := (Nat.dvd_iff_mod_eq_zero ..).mpr h
      exact Nat.le_antisymm hlen (Nat.le_of_dvd (by omega) hdvd)
    · intro h
      rw [h]
      exact Nat.mod_self _

/-- C5, at `N = 4`: after three readings at `x = 300`, the fourth reading at `x = -300`
in a row is the one that prints `left`, and the positive counter is `0`. -/
theorem C5_direction_switch_restarts_count_witness :
    ((motion_loop cfg_events4 (x_reading (-300) 8)
        (feed cfg_events4
          (feed cfg_events4 AxisMaps.init ([x_reading 300 8, x_reading 300 8] ++
            [x_reading 300 8]))
          [x_reading (-300) 8, x_reading (-300) 8, x_reading (-300) 8])).1.axis_pos_map
            0).n_events = 0 ∧
      (Output.motion (axis_neg_str 0) ∈
          (motion_loop cfg_events4 (x_reading (-300) 8)
            (feed cfg_events4
              (feed cfg_events4 AxisMaps.init ([x_reading 300 8, x_reading 300 8] ++
                [x_reading 300 8]))
              [x_reading (-300) 8, x_reading (-300) 8, x_reading (-300) 8])).2 ↔
        [x_reading (-300) 8, x_reading (-300) 8, x_reading (-300) 8].length + 1 =
          cfg_events4.n_events) :=
  C5_direction_switch_restarts_count cfg_events4 rfl (by decide) (by decide) (by decide) 0
    AxisMaps.init [x_reading 300 8, x_reading 300 8] (x_reading 300 8) (by decide)
    [x_reading (-300) 8, x_reading (-300) 8, x_reading (-300) 8] (x_reading (-300) 8)
    (by decide) (by decide)

/-- With `N = 4`: three readings at `+300` then four at `-300` print only `left`, on the
last reading. -/
theorem count_mode_switch_example :
    feed_output cfg_events4 AxisMaps.init
        (List.replicate 3 (x_reading 300 8) ++ List.replicate 4 (x_reading (-300) 8)) =
      [[], [], [], [], [], [], [Output.motion "left"]] := by
  decide

/-! ## The inactive direction in time-based mode -/

/-- C6, the code at the failing input: in time-based mode (`M = 1000`) a reading at
`x = -300` of period `600` leaves the negative accumulator of the `x` axis at `600`; the
next reading, at `x = +300` of period `600`, is active in the positive direction and leaves
the negative (inactive) accumulator at `600`, not at `0`; a third reading at `x = -300` of
period `600` then prints `left` although the negative direction was not active for more
than `1000` ms in a row. -/
theorem C6_inactive_millis_not_reset :
    cfg_millis1000.millis_period = 1000 ∧
      ((feed cfg_millis1000 AxisMaps.init [x_reading (-300) 600]).axis_neg_map 0).millis
        = 600 ∧
      int_ptr (x_reading 300 600) 0 > cfg_millis1000.min_deviation ∧
      ((motion_loop cfg_millis1000 (x_reading 300 600)
        (feed cfg_millis1000 AxisMaps.init [x_reading (-300) 600])).1.axis_pos_map 0).millis
        = 600 ∧
      ((motion_loop cfg_millis1000 (x_reading 300 600)
        (feed cfg_millis1000 AxisMaps.init [x_reading (-300) 600])).1.axis_neg_map 0).millis
        = 600 ∧
      feed_output cfg_millis1000 AxisMaps.init
        [x_reading (-300) 600, x_reading 300 600, x_reading (-300) 600] =
        [[], [], [Output.motion "left"]] := by
  decide

/-! ## Hot-plug add -/

/-- C2, the code at the failing input.  With `--manufacturer 3Dconnexion` and one open
device, a hot-plug add of the keyboard at address `3`, whose manufacturer `Logitech` does
not match the pattern, opens the device and prints its connect record; in the next wake
the device has an entry in the `poll` array and is read.  The initial scan (the sibling
path) skips the same device: it makes no `spacemouse_device_open` call. -/
theorem C2_add_opens_non_matching_device :
    run_regex sample_libc "3Dconnexion" (sample_obj 3).manufacturer
        cfg_manufacturer.regex_mask = 1 ∧
      (run_wakes sample_libc cfg_manufacturer 4 [ready_at 1, ready_at 3]
        (sample_state (sample_world sample_obj_open [1]
          [{ action := Action.ADD, mon_mouse := 3, devices_after := [1, 3] }]
          one_button_press))).calls =
        [Call.poll [{ fd := 1, events := 8, revents := 0 }, { fd := 4, events := 1, revents := 0 },
            { fd := 5, events := 1, revents := 0 }],
          Call.monitor,
          Call.device_open 3,
          Call.stdout (Output.connect "/dev/input/event7" "Logitech" "Keyboard"),
          Call.poll [{ fd := 1, events := 8, revents := 0 }, { fd := 4, events := 1, revents := 0 },
            { fd := 5, events := 1, revents := 0 }, { fd := 7, events := 1, revents := 0 }],
          Call.device_read_event 3,
          Call.stdout (Output.button 0 true)] ∧
      (match startup sample_libc Command.EVENT_CMD cfg_manufacturer []
          (sample_world sample_obj [3] [] one_button_press) with
        | .exit _ trace => trace
        | .cont r => r.state.trace) = [Call.monitor_open, Call.device_list_update] := by
  decide

/-- The other half of the same inverted test: a hot-plug add of a device whose
manufacturer does match the pattern is skipped (no open, no connect record). -/
theorem add_skips_matching_device :
    run_regex sample_libc "3Dconnexion" (sample_obj 2).manufacturer
        cfg_manufacturer.regex_mask = 0 ∧
      (wake sample_libc cfg_manufacturer 4 (ready_at 1)
        (sample_state (sample_world sample_obj_open [1]
          [{ action := Action.ADD, mon_mouse := 2, devices_after := [1, 2] }]
          one_button_press))).calls =
        [Call.poll [{ fd := 1, events := 8, revents := 0 }, { fd := 4, events := 1, revents := 0 },
            { fd := 5, events := 1, revents := 0 }],
          Call.monitor] := by
  decide

/-! ## The dispatch loop -/

/-- C9 as stated fails on the code for the empty device list: patterns are compiled only
when a device is filtered.  With `--manufacturer "("` (which `regcomp` rejects) and no
device present, start-up does not exit: it reaches the poll loop.  The pattern is
rejected later, inside the loop, at the first hot-plug add. -/
theorem C9_counterexample :
    sample_libc.regcomp "(" cfg_bad_pattern.regex_mask ≠ 0 ∧
      (startup sample_libc Command.EVENT_CMD cfg_bad_pattern []
        (sample_world sample_obj [] [] one_button_press)).status = none ∧
      (match startup sample_libc Command.EVENT_CMD cfg_bad_pattern []
          (sample_world sample_obj []
            [{ action := Action.ADD, mon_mouse := 1, devices_after := [1] }]
            one_button_press) with
        | .exit _ _ => none
        | .cont r => (wake sample_libc r.cfg r.monitor_fd (ready_at 1) r.state).status)
        = some EXIT_FAILURE := by
  decide

/-! ## Hot-plug remove -/

/-- C8: handling a remove notification (the pending answer `n` of `spacemouse_monitor`
has action `SPACEMOUSE_ACTION_REMOVE`) prints the record
`device: <devnode> <manufacturer> <product> disconnect` if and only if the device is open
at that moment (`fd > -1`), and closes the device in both cases: the calls made are
`spacemouse_monitor`, the disconnect record when open, `spacemouse_device_close`.  So a
device that was never opened (`fd = -1`) produces no disconnect record. -/
theorem C8_remove_disconnect_iff_open (libc : Libc) (cfg : Config) (iter : Option Nat)
    (st : State) (n : Notification) (rest : List Notification)
    (hq : st.world.notifications = n :: rest) (ha : n.action = Action.REMOVE) :
    ∃ st1, hotplug libc cfg iter st = .cont st1 ∧
      st1.trace = st.trace ++ Call.monitor ::
        ((if st.world.get_fd n.mon_mouse > -1 then
            [Call.stdout (Output.disconnect (st.world.obj n.mon_mouse).devnode
              (st.world.obj n.mon_mouse).manufacturer (st.world.obj n.mon_mouse).product)]
          else []) ++ [Call.device_close n.mon_mouse]) ∧
      (Call.stdout (Output.disconnect (st.world.obj n.mon_mouse).devnode
          (st.world.obj n.mon_mouse).manufacturer (st.world.obj n.mon_mouse).product) ∈
          st1.trace.drop st.trace.length ↔ st.world.get_fd n.mon_mouse > -1) ∧
      Call.device_close n.mon_mouse ∈ st1.trace.drop st.trace.length ∧
      st1.world.get_fd n.mon_mouse = -1 := by
  refine ⟨hotplug_remove n.mon_mouse (monitor st).2, ?_, ?_, ?_, ?_, ?_⟩
  · simp [hotplug, monitor, hq, ha]
  · by_cases hfd : (st.world.obj n.mon_mouse).fd > -1 <;>
      simp [hotplug_remove, monitor, hq, device_close, State.log, World.get_fd, World.set_fd,
        hfd]
  · by_cases hfd : (st.world.obj n.mon_mouse).fd > -1 <;>
      simp [hotplug_remove, monitor, hq, device_close, State.log, World.get_fd, World.set_fd,
        hfd]
  · by_cases hfd : (st.world.obj n.mon_mouse).fd > -1 <;>
      simp [hotplug_remove, monitor, hq, device_close, State.log, World.get_fd, World.set_fd,
        hfd]
  · simp [hotplug_remove, device_close, State.log, World.get_fd, World.set_fd]

/-- C8, at a concrete state: removing the open device `2` prints its disconnect record
and closes it. -/
theorem C8_remove_disconnect_iff_open_witness :
    ∃ st1, hotplug sample_libc cfg_default (some 1) sample_remove_state = .cont st1 ∧
      st1.trace = [Call.monitor,
        Call.stdout (Output.disconnect "/dev/input/event6" "3Dconnexion" "SpacePilot"),
        Call.device_close 2] ∧
      st1.world.get_fd 2 = -1 := by
  obtain ⟨st1, h1, h2, _, _, h5⟩ := C8_remove_disconnect_iff_open sample_libc cfg_default
    (some 1) sample_remove_state
    { action := Action.REMOVE, mon_mouse := 2, devices_after := [1] } [] rfl rfl
  exact ⟨st1, h1, h2.trans (by decide), h5⟩

/-! ## Trigger configuration -/

/-- After a successful option loop, `n_events` is non-zero exactly when it was non-zero
before or an option `-n` was processed, and likewise `millis_period` and `-M`. -/
theorem option_loop_supplied :
    ∀ (argv : List Opt) (cfg cfg1 : Config), option_loop argv cfg = .cont cfg1 →
      (cfg1.n_events ≠ 0 ↔ (cfg.n_events ≠ 0 ∨ ∃ a, Opt.n a ∈ argv)) ∧
      (cfg1.millis_period ≠ 0 ↔ (cfg.millis_period ≠ 0 ∨ ∃ a, Opt.M a ∈ argv)) := by
  intro argv
  induction argv with
  | nil =>
    intro cfg cfg1 h
    simp only [option_loop, Outcome.cont.injEq] at h
    subst h
    simp
  | cons o rest ih =>
    intro cfg cfg1 h
    cases o with
    | d optarg => simpa [option_loop] using ih _ _ h
    | m optarg => simpa [option_loop] using ih _ _ h
    | p optarg => simpa [option_loop] using ih _ _ h
    | i => simpa [option_loop] using ih _ _ h
    | g => simpa [option_loop] using ih _ _ h
    | D tmp =>
      simp only [option_loop] at h
      split_ifs at h
      simpa using ih _ _ h
    | n tmp =>
      simp only [option_loop] at h
      split_ifs at h with hlt
      have h1 := ih _ _ h
      have hpos : tmp.toNat ≠ 0 := by omega
      simp only [hpos, ne_eq, not_false_eq_true, true_or, iff_true] at h1
      refine ⟨?_, ?_⟩
      · simp only [h1.1, ne_eq, not_false_eq_true, true_iff]
        exact Or.inr ⟨tmp, by simp⟩
      · simpa using h1.2
    | M tmp =>
      simp only [option_loop] at h
      split_ifs at h with hlt
      have h1 := ih _ _ h
      have hpos : tmp.toNat ≠ 0 := by omega
      simp only [hpos, ne_eq, not_false_eq_true, true_or, iff_true] at h1
      refine ⟨?_, ?_⟩
      · simpa using h1.1
      · simp only [h1.2, ne_eq, not_false_eq_true, true_iff]
        exact Or.inr ⟨tmp, by simp⟩
    | h => simp [option_loop] at h
    | unknown => simp [option_loop] at h

/-- C10: for every run whose option loop completes with the option variables `cfg`,
the trigger configuration is rejected if and only if both an event-count threshold (`-n`)
and a millisecond threshold (`-M`) were supplied.  In that case the process exits with
`EXIT_FAILURE` and the only call made is the message on standard error: the hot-plug
channel is not opened, no device is enumerated or opened.  Otherwise the run goes on to the
non-option arguments with `n_events` unchanged when `-n` was supplied and `N_EVENTS = 16`
when it was not, and with `millis_period` non-zero (time-based mode) exactly when `-M` was
supplied. -/
theorem C10_trigger_modes_exclusive (libc : Libc) (command : Command) (argv : List Opt)
    (positional : List String) (w : World) (cfg : Config)
    (hparse : option_loop argv initial_config = .cont cfg) :
    ((check_trigger cfg).status = some EXIT_FAILURE ↔
        ((∃ a, Opt.n a ∈ argv) ∧ ∃ a, Opt.M a ∈ argv)) ∧
      (((∃ a, Opt.n a ∈ argv) ∧ ∃ a, Opt.M a ∈ argv) →
        main_startup libc command argv positional w =
          .exit EXIT_FAILURE [Call.stderr ErrorMsg.mutually_exclusive]) ∧
      (¬ ((∃ a, Opt.n a ∈ argv) ∧ ∃ a, Opt.M a ∈ argv) →
        ∃ cfg1, check_trigger cfg = .cont cfg1 ∧
          main_startup libc command argv positional w =
            after_trigger_check libc command positional w cfg1 ∧
          ((∃ a, Opt.n a ∈ argv) → cfg1.n_events = cfg.n_events) ∧
          ((¬ ∃ a, Opt.n a ∈ argv) → cfg1.n_events = 16) ∧
          cfg1.millis_period = cfg.millis_period ∧
          (cfg1.millis_period ≠ 0 ↔ ∃ a, Opt.M a ∈ argv)) := by
  obtain ⟨hn, hm⟩ := option_loop_supplied argv initial_config cfg hparse
  have hn0 : initial_config.n_events = 0 := rfl
  have hm0 : initial_config.millis_period = 0 := rfl
  simp only [hn0, hm0, ne_eq, not_true_eq_false, false_or] at hn hm
  rw [← hn, ← hm]
  by_cases hboth : cfg.n_events ≠ 0 ∧ cfg.millis_period ≠ 0
  · refine ⟨?_, ?_, ?_⟩
    · simp [check_trigger, hboth, Outcome.status]
    · intro _
      simp [main_startup, startup, hparse, Outcome.bind, check_trigger, hboth]
    · intro h
      exact absurd hboth h
  · refine ⟨?_, ?_, ?_⟩
    · constructor
      · intro h
        simp only [check_trigger, hboth, if_false] at h
        split_ifs at h <;> simp [Outcome.status] at h
      · intro h
        exact absurd h hboth
    · intro h
      exact absurd h hboth
    · intro _
      by_cases hz : cfg.n_events = 0
      · refine ⟨{ cfg with n_events := N_EVENTS }, ?_, ?_, ?_, ?_, rfl, Iff.rfl⟩
        · simp [check_trigger, hboth, hz]
        · simp [main_startup, startup, hparse, Outcome.bind, check_trigger, hboth, hz]
        · intro h
          exact absurd hz h
        · intro _
          rfl
      · have hmz : cfg.millis_period = 0 := by
          by_contra hne
          exact hboth ⟨hz, hne⟩
        refine ⟨cfg, ?_, ?_, ?_, ?_, rfl, Iff.rfl⟩
        · simp [check_trigger, hz, hmz]
        · simp [main_startup, startup, hparse, Outcome.bind, check_trigger, hz, hmz]
        · intro _
          rfl
        · intro h
          exact absurd hz h

/-- C10, at `spacemouse-event -n 4 -M 1000`: the run exits with failure and its only call
is the message on standard error. -/
theorem C10_trigger_modes_exclusive_witness :
    main_startup sample_libc Command.EVENT_CMD [Opt.n 4, Opt.M 1000] []
        (sample_world sample_obj [1, 2] [] one_button_press) =
      .exit EXIT_FAILURE [Call.stderr ErrorMsg.mutually_exclusive] :=
  (C10_trigger_modes_exclusive sample_libc Command.EVENT_CMD [Opt.n 4, Opt.M 1000] []
    (sample_world sample_obj [1, 2] [] one_button_press)
    { initial_config with n_events := 4, millis_period := 1000 } rfl).2.1
    ⟨⟨4, by simp⟩, ⟨1000, by simp⟩⟩

/-! ## Unparsable patterns: the non-empty device list -/

/-- The filter loop of the initial scan fails as soon as one of the remaining indices has
a configured pattern that `regcomp` rejects. -/
theorem scan_filter_unparsable (libc : Libc) (cfg : Config) (dev : spacemouse) (n : Fin 3)
    (pat : String) (hpat : opts cfg n = some pat)
    (hbad : libc.regcomp pat cfg.regex_mask ≠ 0) :
    ∀ (l : List (Fin 3)) (skip : Nat), n ∈ l →
      ∃ msg, scan_filter libc cfg dev l skip = .error msg := by
  intro l
  induction l with
  | nil => intro _ h; simp at h
  | cons m rest ih =>
    intro skip hmem
    by_cases hnm : n = m
    · subst hnm
      refine ⟨ErrorMsg.regex_failed (long_option_name n) pat, ?_⟩
      simp [scan_filter, hpat, run_regex, hbad]
    · have hrest : n ∈ rest := by
        rcases List.mem_cons.mp hmem with h | h
        · exact absurd h hnm
        · exact h
      simp only [scan_filter]
      split
      · exact ih skip hrest
      · split_ifs
        · exact ⟨_, rfl⟩
        · exact ih (skip + 1) hrest
        · exact ih skip hrest

/-- C9, amended: for every configuration in which a configured filter pattern (devnode,
manufacturer or product) is rejected by `regcomp`, and for every NON-EMPTY initial device
list, the event-mode program terminates with the non-zero status `EXIT_FAILURE` before the
poll loop starts (start-up ends in an exit, whatever the non-option arguments and the
trigger options are). -/
theorem C9_unparsable_pattern_exits (libc : Libc) (cfg : Config) (positional : List String)
    (w : World) (n : Fin 3) (pat : String) (hpat : opts cfg n = some pat)
    (hbad : libc.regcomp pat cfg.regex_mask ≠ 0) (hdev : w.devices ≠ []) :
    (∃ trace, startup libc Command.EVENT_CMD cfg positional w = .exit EXIT_FAILURE trace) ∧
      EXIT_FAILURE ≠ 0 := by
  refine ⟨?_, by decide⟩
  have key : ∀ cfg1 : Config, opts cfg1 n = some pat → cfg1.regex_mask = cfg.regex_mask →
      ∃ trace, after_trigger_check libc Command.EVENT_CMD positional w cfg1 =
        .exit EXIT_FAILURE trace := by
    intro cfg1 hpat1 hmask
    have hbad1 : libc.regcomp pat cfg1.regex_mask ≠ 0 := by rw [hmask]; exact hbad
    have hargs : (∃ trace, check_arguments Command.EVENT_CMD positional =
        .exit EXIT_FAILURE trace) ∨ ∃ a, check_arguments Command.EVENT_CMD positional = .cont a := by
      unfold check_arguments
      split
      · exact Or.inr ⟨_, rfl⟩
      · simp
      · simp
    rcases hargs with ⟨trace, ht⟩ | ⟨a, ha⟩
    · exact ⟨trace, by simp [after_trigger_check, ht, Outcome.bind]⟩
    · obtain ⟨dev, rest, hlist⟩ := List.exists_cons_of_ne_nil hdev
      have hn : n ∈ filter_indices := mem_filter_indices n
      obtain ⟨msg, hmsg⟩ := scan_filter_unparsable libc cfg1 (w.obj dev) n pat hpat1 hbad1
        filter_indices 0 hn
      refine ⟨[Call.monitor_open, Call.device_list_update, Call.stderr msg], ?_⟩
      simp [after_trigger_check, ha, Outcome.bind, State.log, hlist,
        scan_devices, scan_device, hmsg, fail]
  by_cases hboth : cfg.n_events ≠ 0 ∧ cfg.millis_period ≠ 0
  · exact ⟨[Call.stderr ErrorMsg.mutually_exclusive],
      by simp [startup, check_trigger, hboth, Outcome.bind]⟩
  · by_cases hz : cfg.n_events = 0
    · obtain ⟨trace, ht⟩ := key { cfg with n_events := N_EVENTS } (by simpa [opts] using hpat) rfl
      exact ⟨trace, by simp [startup, check_trigger, hz, Outcome.bind, ht]⟩
    · obtain ⟨trace, ht⟩ := key cfg hpat rfl
      have hmz : cfg.millis_period = 0 := by
        by_contra hne
        exact hboth ⟨hz, hne⟩
      exact ⟨trace, by simp [startup, check_trigger, hz, hmz, Outcome.bind, ht]⟩

/-- C9 amended, at `--manufacturer "("` with one device present: start-up exits with
`EXIT_FAILURE`. -/
theorem C9_unparsable_pattern_exits_witness :
    (∃ trace, startup sample_libc Command.EVENT_CMD cfg_bad_pattern []
        (sample_world sample_obj [1] [] one_button_press) = .exit EXIT_FAILURE trace) ∧
      EXIT_FAILURE ≠ 0 :=
  C9_unparsable_pattern_exits sample_libc cfg_bad_pattern []
    (sample_world sample_obj [1] [] one_button_press) 1 "(" rfl (by decide) (by decide)

/-! ## The dispatch loop: what one wake does -/

/-- The case that the amended C7 leaves out: `poll` reports the entry of the output stream
ready without `POLLERR` (here `POLLHUP`).  The entry falls into the device branch, no
device has descriptor `1`, the list walk leaves `iter` at `NULL`, and the two ready
devices are not read in that wake. -/
theorem stdout_hangup_example :
    hangup_and_ready 0 &&& POLLERR = 0 ∧
      ready_devices hangup_and_ready sample_two_open.world = [1, 2] ∧
      (wake sample_libc cfg_default 4 hangup_and_ready sample_two_open).calls =
        [Call.poll (fill_fds 4 sample_two_open.world)] ∧
      (wake sample_libc cfg_default 4 hangup_and_ready sample_two_open).status = none := by
  decide


/-! ## Time-based mode: the bound on the accumulators and zero-period readings -/

/-- The printed lines of the loop all come from its iterations: each is the label of a
direction of some axis. -/
theorem axis_iterations_output (cfg : Config) (ev : motion_event) :
    ∀ (l : List (Fin 6)) (acc : AxisMaps × List Output) (o : Output),
      o ∈ (axis_iterations cfg ev l acc).2 →
      o ∈ acc.2 ∨ ∃ d j, o = Output.motion (event_str d j) := by
  intro l
  induction l with
  | nil => intro acc o h; exact Or.inl h
  | cons i rest ih =>
    intro acc o h
    rcases ih _ o h with h1 | h1
    · rcases List.mem_append.mp h1 with h2 | h2
      · exact Or.inl h2
      · obtain ⟨d, hd⟩ := axis_iteration_output cfg ev i acc.1 o h2
        exact Or.inr ⟨d, i, hd⟩
    · exact Or.inr h1

/-- In time-based mode an iteration either runs the active branch for some direction (the
sample is beyond the deviation) or clears the axis and prints nothing. -/
theorem axis_iteration_cases (cfg : Config) (ev : motion_event) (i : Fin 6) (s : AxisMaps) :
    ((int_ptr ev i > cfg.min_deviation ∨ int_ptr ev i < -cfg.min_deviation) ∧
        ∃ d, axis_iteration cfg ev i s = axis_active cfg ev.period d i s) ∨
      (¬ (int_ptr ev i > cfg.min_deviation ∨ int_ptr ev i < -cfg.min_deviation) ∧
        (∀ d, (axis_iteration cfg ev i s).1.get d i = { n_events := 0, millis := 0 }) ∧
        (axis_iteration cfg ev i s).2 = []) := by
  by_cases h1 : int_ptr ev i > cfg.min_deviation
  · exact Or.inl ⟨Or.inl h1, true, by simp [axis_iteration, h1]⟩
  · by_cases h2 : int_ptr ev i < -cfg.min_deviation
    · have h2' : int_ptr ev i < -1 * cfg.min_deviation := by omega
      exact Or.inl ⟨Or.inr h2, false, by simp only [axis_iteration, h1, h2', if_true, if_false]⟩
    · obtain ⟨n1, n2⟩ := axis_iteration_neutral cfg ev i s (by omega) (by omega)
      exact Or.inr ⟨by
        intro h
        rcases h with h | h
        · exact h1 h
        · exact h2 h, n1, n2⟩

/-- In time-based mode one reading keeps every accumulator at most `M` and below
`2 ^ 32`. -/
theorem motion_loop_millis_bounded (cfg : Config) (hM : 1 ≤ cfg.millis_period)
    (ev : motion_event) (s : AxisMaps) (d : Bool) (i : Fin 6)
    (hs : ∀ e, (s.get e i).millis ≤ cfg.millis_period ∧ (s.get e i).millis < UINT_SIZE) :
    ((motion_loop cfg ev s).1.get d i).millis ≤ cfg.millis_period ∧
      ((motion_loop cfg ev s).1.get d i).millis < UINT_SIZE := by
  have hmode : cfg.millis_period ≠ 0 := by omega
  have hU : 0 < UINT_SIZE := by decide
  rw [(motion_loop_axis cfg ev s i).1 d]
  rcases axis_iteration_cases cfg ev i s with ⟨_, d0, hact⟩ | ⟨_, hz, _⟩
  · rw [hact]
    obtain ⟨a1, a2, _, _⟩ := axis_active_millis cfg hmode ev.period d0 i s
    by_cases hd : d = d0
    · subst hd
      rw [a1]
      have hlt : ((s.get d i).millis + ev.period) % UINT_SIZE < UINT_SIZE := Nat.mod_lt _ hU
      have hmod : ((s.get d i).millis + ev.period) % UINT_SIZE % cfg.millis_period
          < cfg.millis_period := Nat.mod_lt _ (by omega)
      have hle : ((s.get d i).millis + ev.period) % UINT_SIZE % cfg.millis_period
          ≤ ((s.get d i).millis + ev.period) % UINT_SIZE := Nat.mod_le _ _
      simp only
      split_ifs with h
      · exact ⟨by omega, by omega⟩
      · exact ⟨by omega, hlt⟩
    · have hd2 : d = !d0 := by
        cases d <;> cases d0 <;> simp at hd ⊢
      rw [hd2, a2]
      exact hs (!d0)
  · rw [hz d]
    exact ⟨by simp, by simpa using hU⟩

/-- In time-based mode every state reached from the all-zero state has all accumulators at
most `M` and below `2 ^ 32`. -/
theorem feed_millis_bounded (cfg : Config) (hM : 1 ≤ cfg.millis_period) :
    ∀ (evs : List motion_event) (s : AxisMaps),
      (∀ d i, (s.get d i).millis ≤ cfg.millis_period ∧ (s.get d i).millis < UINT_SIZE) →
      ∀ d i, ((feed cfg s evs).get d i).millis ≤ cfg.millis_period ∧
        ((feed cfg s evs).get d i).millis < UINT_SIZE := by
  intro evs
  induction evs with
  | nil => intro s hs; simpa [feed] using hs
  | cons ev rest ih =>
    intro s hs
    rw [feed_cons]
    exact ih _ fun d i => motion_loop_millis_bounded cfg hM ev s d i fun e => hs e i

theorem init_millis_bounded (M : Nat) (d : Bool) (i : Fin 6) :
    (AxisMaps.init.get d i).millis ≤ M ∧ (AxisMaps.init.get d i).millis < UINT_SIZE := by
  cases d <;> simp [AxisMaps.init, AxisMaps.get, UINT_SIZE]

/-- In time-based mode a reading of period `0` on a state with bounded accumulators changes
no accumulator of an active axis and prints nothing. -/
theorem motion_loop_zero_period (cfg : Config) (hM : 1 ≤ cfg.millis_period)
    (ev : motion_event) (hp : ev.period = 0) (s : AxisMaps)
    (hs : ∀ d i, (s.get d i).millis ≤ cfg.millis_period ∧ (s.get d i).millis < UINT_SIZE) :
    (∀ i, (int_ptr ev i > cfg.min_deviation ∨ int_ptr ev i < -cfg.min_deviation) →
        ∀ d, ((motion_loop cfg ev s).1.get d i).millis = (s.get d i).millis) ∧
      (motion_loop cfg ev s).2 = [] := by
  have hmode : cfg.millis_period ≠ 0 := by omega
  have key : ∀ (i : Fin 6) (d0 : Bool),
      ((s.get d0 i).millis + ev.period) % UINT_SIZE = (s.get d0 i).millis := by
    intro i d0
    rw [hp, Nat.add_zero]
    exact Nat.mod_eq_of_lt (hs d0 i).2
  refine ⟨?_, ?_⟩
  · intro i hact d
    rw [(motion_loop_axis cfg ev s i).1 d]
    rcases axis_iteration_cases cfg ev i s with ⟨_, d0, hit⟩ | ⟨hn, _, _⟩
    · rw [hit]
      obtain ⟨a1, a2, _, _⟩ := axis_active_millis cfg hmode ev.period d0 i s
      by_cases hd : d = d0
      · subst hd
        rw [a1, key i d]
        have := (hs d i).1
        simp only
        split_ifs with h
        · omega
        · rfl
      · have hd2 : d = !d0 := by
          cases d <;> cases d0 <;> simp at hd ⊢
        rw [hd2, a2]
    · exact absurd hact hn
  · apply List.eq_nil_iff_forall_not_mem.mpr
    intro o ho
    rcases axis_iterations_output cfg ev axes (s, []) o ho with h | ⟨d, j, hdj⟩
    · simp at h
    · subst hdj
      rw [(motion_loop_axis cfg ev s j).2 d] at ho
      rcases axis_iteration_cases cfg ev j s with ⟨_, d0, hit⟩ | ⟨_, _, hout⟩
      · rw [hit] at ho
        obtain ⟨_, _, a3, a4⟩ := axis_active_millis cfg hmode ev.period d0 j s
        by_cases hd : d = d0
        · subst hd
          rw [a3, key j d] at ho
          have := (hs d j).1
          omega
        · have hd2 : d = !d0 := by
            cases d <;> cases d0 <;> simp at hd ⊢
          rw [hd2] at ho
          exact a4 ho
      · rw [hout] at ho
        simp at ho

/-- C12: time-based mode, `M >= 1`.  In every axis state reached from the all-zero state
by any sequence `evs` of motion readings (any samples, any periods), each direction's
`millis` is at most `M`; and a reading whose period is `0` leaves both accumulators of
every active axis (sample above `T` or below `-T`) unchanged and prints no motion event on
any axis. -/
theorem C12_zero_period_reading (cfg : Config) (hM : 1 ≤ cfg.millis_period)
    (evs : List motion_event) (ev : motion_event) (hp : ev.period = 0) :
    (∀ d i, ((feed cfg AxisMaps.init evs).get d i).millis ≤ cfg.millis_period) ∧
      (∀ i, (int_ptr ev i > cfg.min_deviation ∨ int_ptr ev i < -cfg.min_deviation) →
        ∀ d, ((motion_loop cfg ev (feed cfg AxisMaps.init evs)).1.get d i).millis =
          ((feed cfg AxisMaps.init evs).get d i).millis) ∧
      (motion_loop cfg ev (feed cfg AxisMaps.init evs)).2 = [] := by
  have hinv := feed_millis_bounded cfg hM evs AxisMaps.init
    (fun d i => init_millis_bounded cfg.millis_period d i)
  obtain ⟨h1, h2⟩ := motion_loop_zero_period cfg hM ev hp (feed cfg AxisMaps.init evs) hinv
  exact ⟨fun d i => (hinv d i).1, h1, h2⟩

/-- C12, at `M = 1000`: after readings at `x = 300` (600 ms) and `x = -300` (700 ms), a
reading at `x = 300` with period `0` prints nothing. -/
theorem C12_zero_period_reading_witness :
    (motion_loop cfg_millis1000 (x_reading 300 0)
      (feed cfg_millis1000 AxisMaps.init [x_reading 300 600, x_reading (-300) 700])).2 = [] :=
  (C12_zero_period_reading cfg_millis1000 (by decide)
    [x_reading 300 600, x_reading (-300) 700] (x_reading 300 0) rfl).2.2

/-- With `M = 1000`: the two accumulators of the `x` axis after readings of 600 ms at
`+300` and 700 ms at `-300` are `600` and `700`, and a zero-period reading at `+300` leaves
both as they are. -/
theorem zero_period_example :
    ((feed cfg_millis1000 AxisMaps.init
        [x_reading 300 600, x_reading (-300) 700]).axis_pos_map 0).millis = 600 ∧
      ((feed cfg_millis1000 AxisMaps.init
        [x_reading 300 600, x_reading (-300) 700]).axis_neg_map 0).millis = 700 ∧
      ((feed cfg_millis1000 AxisMaps.init
        [x_reading 300 600, x_reading (-300) 700, x_reading 300 0]).axis_pos_map 0).millis
        = 600 ∧
      ((feed cfg_millis1000 AxisMaps.init
        [x_reading 300 600, x_reading (-300) 700, x_reading 300 0]).axis_neg_map 0).millis
        = 700 ∧
      feed_output cfg_millis1000 AxisMaps.init
        [x_reading 300 600, x_reading (-300) 700, x_reading 300 0] = [[], [], []] := by
  decide

/-! ## The size of the `poll` array -/

/-- C13, the code on every loop iteration: with `k` open devices the array is declared
with `k + 1` elements (`struct pollfd fds[fds_idx + 1]`), the loop writes `k + 2` entries
(output stream, hot-plug channel, one per open device), and so there is a write at the
index that equals the declared length, one past the last element. -/
theorem C13_fds_write_past_the_end (monitor_fd : Int) (w : World) :
    fds_length w = (open_devices w).length + 1 ∧
      (fds_writes monitor_fd w).length = (open_devices w).length + 2 ∧
      ∃ entry, (fds_length w, entry) ∈ fds_writes monitor_fd w := by
  have hlen : (fill_fds monitor_fd w).length = (open_devices w).length + 2 := by
    simp [fill_fds]
  have hlt : fds_length w < (fill_fds monitor_fd w).length := by
    rw [hlen]
    simp [fds_length]
  refine ⟨rfl, by simp [fds_writes, hlen], (fill_fds monitor_fd w)[fds_length w], ?_⟩
  rw [fds_writes, List.mk_mem_enum_iff_getElem?]
  exact List.getElem?_eq_getElem hlt

/-- With no open device the array has one element and two entries are written: the entry
of the hot-plug channel goes to index `1`. -/
theorem fds_no_open_device :
    fds_length (sample_world sample_obj [] [] one_button_press) = 1 ∧
      fds_writes 4 (sample_world sample_obj [] [] one_button_press) =
        [(0, { fd := 1, events := 8, revents := 0 }),
          (1, { fd := 4, events := 1, revents := 0 })] := by
  decide

/-! ## Hot-plug add with grab -/

/-- The add branch, for a device that passes the filter and opens, with grab requested:
the device handed to `spacemouse_device_grab` is `iter`, whatever the new device
`mon_mouse` is; the process exits with failure exactly when that call fails. -/
theorem hotplug_add_grabs_iter (libc : Libc) (cfg : Config) (iter : Option Nat)
    (mon_mouse : Nat) (st : State)
    (hf : add_filter libc cfg (st.world.obj mon_mouse) filter_indices 0 = .ok 0)
    (ho : st.world.open_result mon_mouse ≠ -1) (hg : cfg.grab_dev = true) :
    (st.world.grab_result iter ≠ 0 →
        hotplug_add libc cfg iter mon_mouse st =
          .exit EXIT_FAILURE (st.trace ++
            [Call.device_open mon_mouse, Call.device_grab iter,
              Call.stderr (ErrorMsg.grab_failed
                (match iter with
                 | some dev => ((device_open mon_mouse st).2.world.obj dev).devnode
                 | none => ""))])) ∧
      (st.world.grab_result iter = 0 →
        ∃ st1, hotplug_add libc cfg iter mon_mouse st = .cont st1 ∧
          st1.trace = st.trace ++
            [Call.device_open mon_mouse, Call.device_grab iter,
              Call.stdout (Output.connect (st.world.obj mon_mouse).devnode
                (st.world.obj mon_mouse).manufacturer (st.world.obj mon_mouse).product)]) := by
  constructor
  · intro hgr
    simp [hotplug_add, hf, device_open, ho, hg, State.log, World.set_fd, hgr, fail,
      Outcome.bind]
  · intro hgr
    refine ⟨((device_open mon_mouse st).2.log (Call.device_grab iter)).log
      (Call.stdout (Output.connect (st.world.obj mon_mouse).devnode
        (st.world.obj mon_mouse).manufacturer (st.world.obj mon_mouse).product)), ?_, ?_⟩
    · simp [hotplug_add, hf, device_open, ho, hg, State.log, World.set_fd, hgr, fail,
        Outcome.bind]
    · simp [State.log, device_open]

/-- C11, the code at the failing input.  With `--grab`, no filter pattern and device `1`
open, a hot-plug add of the device at address `3`:
(1) the code opens device `3`, calls `spacemouse_device_grab` on device `1` (the head of
the list) and prints the connect record of device `3`; when grabbing device `3` would fail
the process does not terminate;
(2) when grabbing device `1` fails the process exits with `EXIT_FAILURE` although the new
device could be grabbed, and the message names the devnode of device `1`;
(3) with an empty device list the call is made on `NULL`. -/
theorem C11_add_grabs_list_head :
    (wake sample_libc cfg_grab 4 (ready_at 1) (sample_add_state [1] (some 3))).calls =
        [Call.poll [{ fd := 1, events := 8, revents := 0 }, { fd := 4, events := 1, revents := 0 },
            { fd := 5, events := 1, revents := 0 }],
          Call.monitor,
          Call.device_open 3,
          Call.device_grab (some 1),
          Call.stdout (Output.connect "/dev/input/event7" "Logitech" "Keyboard")] ∧
      (wake sample_libc cfg_grab 4 (ready_at 1) (sample_add_state [1] (some 3))).status
        = none ∧
      (wake sample_libc cfg_grab 4 (ready_at 1) (sample_add_state [1] (some 1))).calls =
        [Call.poll [{ fd := 1, events := 8, revents := 0 }, { fd := 4, events := 1, revents := 0 },
            { fd := 5, events := 1, revents := 0 }],
          Call.monitor,
          Call.device_open 3,
          Call.device_grab (some 1),
          Call.stderr (ErrorMsg.grab_failed "/dev/input/event5")] ∧
      (wake sample_libc cfg_grab 4 (ready_at 1) (sample_add_state [1] (some 1))).status
        = some EXIT_FAILURE ∧
      (wake sample_libc cfg_grab 4 (ready_at 1) (sample_add_state [] none)).calls =
        [Call.poll [{ fd := 1, events := 8, revents := 0 }, { fd := 4, events := 1, revents := 0 }],
          Call.monitor,
          Call.device_open 3,
          Call.device_grab none,
          Call.stderr (ErrorMsg.grab_failed "")] := by
  decide

end Spacemouse
